import Mathlib

/-!
Verification development for the task-orchestration engine of this
repository: the TTL cache, the date/time parser's duration inference,
the deterministic slot finder, the mail composition flow, the scheduling
flow and the dialogue orchestrator are embedded shallowly and the spec's
testable properties are settled against the embeddings.

Conventions: timestamps are integers in milliseconds unless noted
(slot arithmetic uses minutes, stated at the definition); JavaScript
`Map` iteration order is modelled by an association list in insertion
order; external collaborators (the completion gateway, the calendar and
mail backends, the message store) enter as explicit oracle arguments.
-/

/-! ## TTL cache (cacheManager, src/unnamed/part_000)

A cache entry as stored by `set`: `{ value, expires: now + ttl,
timestamp: now }`.  The backing `Map` is an association list in
insertion order; `Map.set` on a present key replaces in place,
otherwise appends.
-/

structure CacheItem where
  value : String
  expires : Int
  timestamp : Int
deriving Repr, DecidableEq

abbrev Cache := List (String × CacheItem)

/-- `Map.has`. -/
def mapHas (c : Cache) (k : String) : Bool :=
  c.any (fun p => p.1 == k)

/-- `Map.get` (first entry with the key, as in a JS `Map`). -/
def mapGet (c : Cache) (k : String) : Option CacheItem :=
  (c.find? (fun p => p.1 == k)).map (fun p => p.2)

/-- `Map.delete`. -/
def mapDelete (c : Cache) (k : String) : Cache :=
  c.filter (fun p => p.1 != k)

/-- `Map.set`: replace in place when present, append when new. -/
def mapSet (c : Cache) (k : String) (v : CacheItem) : Cache :=
  if mapHas c k then c.map (fun p => if p.1 == k then (k, v) else p)
  else c ++ [(k, v)]

structure CacheOptions where
  maxSize : Nat
  defaultTTL : Int
deriving Repr

/-- `getOldestKey` scans the whole map keeping the entry whose
`timestamp` is strictly smallest so far (ties keep the earlier entry);
returns `none` on an empty cache.  `oldestPair` is its scan. -/
def oldestPair (c : Cache) : Option (String × CacheItem) :=
  c.foldl
    (fun acc p =>
      match acc with
      | none => some p
      | some q => if p.2.timestamp < q.2.timestamp then some p else some q)
    none

def getOldestKey (c : Cache) : Option String :=
  (oldestPair c).map Prod.fst

/-- `set(key, value, ttl)` from the source: empty key is rejected with
`false`; at capacity with a new key the oldest entry is deleted first;
then the item is stored with `expires = now + ttl`, `timestamp = now`.
The body's `try` never throws (all operations are total), so the catch
arm is not modelled. -/
def cacheSet (opts : CacheOptions) (now : Int) (c : Cache) (key : String)
    (v : String) (ttl : Int) : Bool × Cache :=
  if key = "" then (false, c)
  else
    let c1 :=
      if opts.maxSize ≤ c.length ∧ mapHas c key = false then
        match getOldestKey c with
        | some ok => mapDelete c ok
        | none => c
      else c
    (true, mapSet c1 key { value := v, expires := now + ttl, timestamp := now })

/-- `get(key)`: `null` for an empty or absent key; an entry with
`expires < now` is deleted on access and `null` returned. -/
def cacheGet (now : Int) (c : Cache) (key : String) : Option String × Cache :=
  if key = "" ∨ mapHas c key = false then (none, c)
  else
    match mapGet c key with
    | none => (none, c)
    | some item =>
      if item.expires < now then (none, mapDelete c key)
      else (some item.value, c)

/-- `has(key)`: same shape as `get`, returning a boolean. -/
def cacheHas (now : Int) (c : Cache) (key : String) : Bool × Cache :=
  if key = "" ∨ mapHas c key = false then (false, c)
  else
    match mapGet c key with
    | none => (false, c)
    | some item =>
      if item.expires < now then (false, mapDelete c key)
      else (true, c)

/-! ## Duration inference in `parseDateAndTime`
(src/unnamed/part_001 lines 67-73 and
src/services/calendar/eventAnalyzer.js lines 49-55, identical code)

When the gateway's JSON carries truthy `time` and `endTime` strings but
a falsy `duration` (absent or 0), the parser computes
`(endH*60+endM) - (startH*60+startM)` and adds 24*60 when the
difference is nonpositive. -/

structure ParsedClock where
  time : Option (Int × Int)
  endTime : Option (Int × Int)
  duration : Option Int
deriving Repr, DecidableEq

/-- JavaScript truthiness of the `duration` field: absent, `null` and
`0` are falsy. -/
def durationTruthy : Option Int → Bool
  | none => false
  | some d => d != 0

/-- The computed `durationMinutes` of the source, including the
midnight correction. -/
def inferDuration (sh sm eh em : Int) : Int :=
  let d := (eh * 60 + em) - (sh * 60 + sm)
  if d ≤ 0 then d + 24 * 60 else d

/-- The `if (parsed.time && parsed.endTime && !parsed.duration)` block. -/
def applyDurationInference (p : ParsedClock) : ParsedClock :=
  if durationTruthy p.duration = false then
    match p.time, p.endTime with
    | some (sh, sm), some (eh, em) =>
      { p with duration := some (inferDuration sh sm eh em) }
    | _, _ => p
  else p

/-! ## `findAvailableTimeSlots`
(src/services/calendar/eventAnalyzer.js lines 243-339)

Times are integer milliseconds.  `dayMid` is midnight of the target
date; working hours are 09:00-17:00 on that day.  An event models a
Google Calendar item: `startDateTime` is `start.dateTime` (absent for
all-day events, whose `start.date` value feeds the sort only) and
`endDateTime` is `end.dateTime` (comparisons against an absent value
are false, as with `NaN` in the source).  The `while` loops that emit
slots at 30-minute steps are written with an explicit iteration bound
that the guard makes sufficient. -/

structure CalEvent where
  startDateTime : Option Int
  startDate : Int
  endDateTime : Option Int
deriving Repr, DecidableEq

/-- A candidate slot; `stop` is the source's `end` field. -/
structure Slot where
  start : Int
  stop : Int
deriving Repr, DecidableEq

/-- The sort key of `events.sort((a, b) => aStart - bStart)`. -/
def eventSortKey (e : CalEvent) : Int :=
  match e.startDateTime with
  | some t => t
  | none => e.startDate

/-- Stable insertion into a sorted prefix (a new element goes after
equal keys, as in the engine's stable `Array.sort`). -/
def sortInsert (e : CalEvent) : List CalEvent → List CalEvent
  | [] => [e]
  | f :: fs =>
    if eventSortKey f ≤ eventSortKey e then f :: sortInsert e fs
    else e :: f :: fs

def sortEvents (events : List CalEvent) : List CalEvent :=
  events.foldl (fun acc e => sortInsert e acc) []

/-- `Math.ceil(now.getMinutes() / 30) * 30` written back into the hour:
seconds and milliseconds are zeroed and the minutes rounded up to a
multiple of 30 (rolling into the next hour at 31-59). -/
def roundUpTo30 (now : Int) : Int :=
  let hourStart := now - now.emod (60 * 60000)
  let minutes := now.emod (60 * 60000) / 60000
  hourStart + (minutes + 29) / 30 * 30 * 60000

/-- The slot-emitting `while` loop: from `slotStart`, emit
`[slotStart, slotStart + durationMs]` and step 30 minutes while
`slotStart + durationMs <= limit`; the fuel argument bounds the
iteration count. -/
def slotLoopFuel (limit durMs : Int) : Nat → Int → List Slot
  | 0, _ => []
  | fuel + 1, slotStart =>
    if slotStart + durMs ≤ limit then
      { start := slotStart, stop := slotStart + durMs } ::
        slotLoopFuel limit durMs fuel (slotStart + 30 * 60000)
    else []

/-- The loop with enough fuel for its guard: one emission consumes
30 minutes of the distance `limit - durMs - slotStart`. -/
def slotLoop (slotStart limit durMs : Int) : List Slot :=
  slotLoopFuel limit durMs ((limit - durMs - slotStart).toNat / (30 * 60000) + 1)
    slotStart

/-- One iteration of the `for (const event of sortedEvents)` body:
all-day events are skipped entirely; a timed event ahead of the cursor
opens a gap that is filled when it is at least `durMs` wide; the
cursor then moves past the event's end when that end is a known time
greater than the cursor. -/
def processEvent (durMs : Int) (st : List Slot × Int) (ev : CalEvent) :
    List Slot × Int :=
  match ev.startDateTime with
  | none => st
  | some es =>
    let acc1 :=
      if es > st.2 ∧ es - st.2 ≥ durMs then st.1 ++ slotLoop st.2 es durMs
      else st.1
    let cur1 :=
      match ev.endDateTime with
      | some ee => if ee > st.2 then ee else st.2
      | none => st.2
    (acc1, cur1)

/-- `findAvailableTimeSlots(targetDate, duration)`: working window
09:00-17:00 on the target day, start advanced to the next 30-minute
boundary when the target is today and the time has passed 09:00;
gaps before each sorted timed event and after the last event yield
slots; the first five are returned. -/
def findAvailableTimeSlots (dayMid : Int) (isToday : Bool) (now : Int)
    (events : List CalEvent) (duration : Int) : List Slot :=
  let dayStart0 := dayMid + 9 * 60 * 60000
  let dayEnd := dayMid + 17 * 60 * 60000
  let dayStart :=
    if isToday ∧ now > dayStart0 then roundUpTo30 now else dayStart0
  let durMs := duration * 60 * 1000
  let st := (sortEvents events).foldl (processEvent durMs) ([], dayStart)
  let acc2 := if st.2 < dayEnd then st.1 ++ slotLoop st.2 dayEnd durMs else st.1
  acc2.take 5

/-- Chronological order of a slot list: starts never decrease. -/
def slotsChrono (l : List Slot) : Prop :=
  l.Pairwise (fun a b => a.start ≤ b.start)

/-- A calendar event with a well-formed time range: a timed start
comes with a timed end no earlier than it. -/
def eventWellFormed (e : CalEvent) : Prop :=
  ∀ s : Int, e.startDateTime = some s →
    ∃ t : Int, e.endDateTime = some t ∧ s ≤ t

/-- Shift a slot by an offset (for stating translation invariance). -/
def slotShift (d : Int) (x : Slot) : Slot :=
  { start := x.start + d, stop := x.stop + d }

/-! ## Mail composition flow (emailService, src/unnamed/part_002)

`handleEmailIntent` drives the staged dialogue.  Its collaborators are
total in the source: `analyzeContextCompleteness`, `analyzeEmailContext`
and `sendEmail` catch every failure and return a value, so the
handler's top-level catch is unreachable; the one real raise is inside
`generateHumanizedEmail` (when all three generation attempts fail, its
own catch dereferences a variable that is out of scope there), and
`proceedToEmailGeneration` absorbs it.  The `data` fields
`styleAnalysis` and `contextAnalysis` hold oracle outputs no later
branch reads and are omitted. -/

/-- ASCII lower-casing of one character (`String.toLowerCase` in the
source; the inputs the claims exercise are ASCII). -/
def lowerChar (c : Char) : Char :=
  if 65 ≤ c.toNat ∧ c.toNat ≤ 90 then Char.ofNat (c.toNat + 32) else c

/-- `text.toLowerCase()`. -/
def toLowerAscii (s : String) : String :=
  String.mk (s.toList.map lowerChar)

/-- JavaScript whitespace for `String.trim` (ASCII portion). -/
def isWsChar (c : Char) : Bool :=
  c = ' ' ∨ c = '\t' ∨ c = '\n' ∨ c = '\r'

/-- `text.trim()`. -/
def trimChars (s : String) : String :=
  String.mk (((s.toList.dropWhile isWsChar).reverse.dropWhile isWsChar).reverse)

/-- Whether `pat` occurs at some position of `s` (scan of suffixes). -/
def containsSubAux (pat : List Char) : List Char → Bool
  | [] => pat.isEmpty
  | c :: rest => pat.isPrefixOf (c :: rest) || containsSubAux pat rest

/-- JavaScript `String.includes` (empty pattern is always contained). -/
def containsSubstr (s pat : String) : Bool :=
  containsSubAux pat.toList s.toList

/-- JavaScript truthiness of an optional string (absent, `null` and
the empty string are falsy). -/
def strTruthy : Option String → Bool
  | none => false
  | some s => s != ""

inductive EmailStage
  | init
  | collecting_recipient
  | collecting_purpose
  | checking_context
  | collecting_context
  | generating
  | confirming
  | editing
deriving Repr, DecidableEq

structure EmailData where
  toAddr : String
  subject : String
  body : String
  purpose : String
  startTime : Int
deriving Repr, DecidableEq

structure EmailState where
  active : Bool
  stage : EmailStage
  data : EmailData
deriving Repr, DecidableEq

/-- The fresh inactive state the source assigns on completion,
cancellation, timeout and error (its object literal has no
`startTime`; `0` stands for the absent field, never read while
inactive). -/
def emailStateReset : EmailState :=
  { active := false, stage := .init,
    data := { toAddr := "", subject := "", body := "", purpose := "", startTime := 0 } }

/-- Verdict of `analyzeContextCompleteness` (total in the source). -/
structure ContextVerdict where
  hasAllContext : Bool
  missingInfo : Option String
deriving Repr, DecidableEq

/-- Oracle outcomes of the external calls one mail turn can make.
`genResult` abstracts `generateHumanizedEmail`: `some (subject, body)`
when a generation attempt succeeds, `none` when all three fail and the
function raises.  `sendResult` is the string `sendEmail` returns (that
function catches internally and never throws). -/
structure MailOracle where
  ctxVerdict : ContextVerdict
  genResult : Option (String × String)
  sendResult : String
deriving Repr, DecidableEq

/-- `proceedToEmailGeneration(state)`: style analysis (total), then
the humanized draft; on success store subject and body and move to
`confirming`; the catch of any raise reverts the stage to
`collecting_purpose`, leaving the flow active. -/
def proceedToEmailGeneration (o : MailOracle) (st : EmailState) :
    String × EmailState :=
  match o.genResult with
  | some (subj, body) =>
    ("Here's your personalized email draft:\n\nTo: " ++ st.data.toAddr ++
       "\nSubject: " ++ subj ++ "\n\n" ++ body ++
       "\n\nShould I send this email? (yes/no)",
     { st with stage := .confirming,
               data := { st.data with subject := subj, body := body } })
  | none =>
    ("I encountered an issue creating your email. Could you please describe the purpose again?",
     { st with stage := .collecting_purpose })

/-- `handleEmailIntent(userInput, entities)` (src/unnamed/part_002
lines 801-959).  `entitiesTo` is `entities.to` (`none` when absent);
`emailMatch` stands for the first match of the email-address regular
expression in the input (uninterpreted).  The last component counts
`sendEmail` invocations during the turn. -/
def handleEmailIntent (emailMatch : String → Option String) (o : MailOracle)
    (now : Int) (st : EmailState) (userInput : String)
    (entitiesTo : Option String) : String × EmailState × Nat :=
  if st.active = false then
    let to0 := match entitiesTo with
      | some s => if s = "MISSING" then "" else s
      | none => ""
    let st1 : EmailState :=
      { active := true, stage := .collecting_purpose,
        data := { toAddr := to0, subject := "", body := "", purpose := "",
                  startTime := now } }
    if to0 ≠ "" then
      ("Great, I'll help you draft an email to " ++ to0 ++
         ". What's the purpose of this email?", st1, 0)
    else
      ("Who would you like to send an email to? (Please provide their email address)",
       { st1 with stage := .collecting_recipient }, 0)
  else if now - st.data.startTime > 15 * 60 * 1000 then
    ("It looks like our email drafting session timed out. Let's start over. What would you like to do?",
     emailStateReset, 0)
  else
    match st.stage with
    | .collecting_recipient =>
      match emailMatch userInput with
      | some addr =>
        ("Thanks! What's the purpose of your email to " ++ addr ++ "?",
         { st with stage := .collecting_purpose,
                   data := { st.data with toAddr := addr } }, 0)
      | none =>
        ("I didn't catch a valid email address. Please provide a full email address like example@domain.com",
         st, 0)
    | .collecting_purpose =>
      let d1 := { st.data with purpose := trimChars userInput }
      let st1 := { st with stage := EmailStage.checking_context, data := d1 }
      if o.ctxVerdict.hasAllContext = false ∧ strTruthy o.ctxVerdict.missingInfo = true then
        ("I can draft that email, but could you clarify " ++
           o.ctxVerdict.missingInfo.getD "" ++
           "? This will help me write a more specific message.",
         { st1 with stage := .collecting_context }, 0)
      else
        let r := proceedToEmailGeneration o { st1 with stage := .generating }
        (r.1, r.2, 0)
    | .collecting_context =>
      let d1 := { st.data with purpose := st.data.purpose ++ " " ++ trimChars userInput }
      let st1 := { st with stage := EmailStage.generating, data := d1 }
      let r := proceedToEmailGeneration o st1
      (r.1, r.2, 0)
    | .confirming =>
      if containsSubstr (toLowerAscii userInput) "yes" then
        (o.sendResult, emailStateReset, 1)
      else if containsSubstr (toLowerAscii userInput) "no" then
        ("Would you like to edit the email, change the recipient, or cancel?",
         { st with stage := .editing }, 0)
      else
        ("Please confirm with 'yes' to send the email or 'no' to make changes.",
         st, 0)
    | .editing =>
      if containsSubstr (toLowerAscii userInput) "edit" then
        ("Please describe again what you want to say in this email.",
         { st with stage := .collecting_purpose }, 0)
      else if containsSubstr (toLowerAscii userInput) "recipient" ∨
          containsSubstr (toLowerAscii userInput) "to" then
        ("Who would you like to send this email to instead?",
         { st with stage := .collecting_recipient }, 0)
      else if containsSubstr (toLowerAscii userInput) "cancel" then
        ("Email canceled. What else can I help you with?", emailStateReset, 0)
      else
        ("Would you like to edit the email content, change the recipient, or cancel?",
         st, 0)
    | .generating =>
      ("I'm working on your email draft, please wait a moment...", st, 0)
    | _ =>
      ("I seem to have lost track of our email drafting. Let's start over. Would you like to send an email?",
       emailStateReset, 0)

/-! ## Intent classification and entity extraction
(services/chat.js, stored under src/services/auth/googleAuth.js,
lines 346-510) -/

/-- Entity objects are string-keyed string maps; `{}` is `[]`. -/
abbrev Entities := List (String × String)

/-- Uninterpreted stand-ins for the JavaScript regular expressions the
extractor's fallback paths run over the input text; each returns the
relevant capture groups of the first match, if any. -/
structure RegexLib where
  calledMatch : String → Option String
  scheduleMatch : String → Option (String × String)
  emailToMatch : String → Option String
  subjectMatch : String → Option String
  bodyMatch : String → Option String
  catchToMatch : String → Option String

/-- Oracle for one `extractEntities` turn: `gateway` is the completion
response (`none` when the call rejects and control reaches the outer
catch), and `parsedJson` the object recovered from the first
brace-delimited span of that response when the parse succeeds. -/
structure ExtractOracle where
  gateway : Option String
  parsedJson : Option Entities

/-- `extractEntities(text, intentType)`.  `emailActive` is
`isInEmailFlow()`; `nowIso` and `tomorrowIso` are the ISO strings the
calendar fallback derives from the clock.  The second component counts
completion-gateway calls made during the turn. -/
def extractEntities (r : RegexLib) (o : ExtractOracle)
    (nowIso tomorrowIso : String) (text : String) (intentType : String)
    (emailActive : Bool) : Entities × Nat :=
  if intentType = "research_intent" then
    match o.gateway with
    | some resp =>
      ([("topic", if trimChars resp = "" then "AI" else trimChars resp)], 1)
    | none =>
      let tail := ((text.splitOn "research").get? 1).map trimChars
      ([("topic", match tail with
          | some t => if t = "" then "AI" else t
          | none => "AI")], 1)
  else if intentType = "calendar_intent" then
    match o.gateway with
    | some _ =>
      match o.parsedJson with
      | some j => (j, 1)
      | none =>
        let en := (r.calledMatch text).getD "Meeting"
        let dt := if containsSubstr text "tomorrow" then tomorrowIso else nowIso
        ([("eventName", en), ("dateTime", dt)], 1)
    | none =>
      match r.scheduleMatch text with
      | some (n, d2) =>
        ([("eventName", n),
          ("dateTime", if d2 = "tomorrow" then "2025-03-30T14:00:00Z"
                       else "2025-03-29T11:00:00Z")], 1)
      | none =>
        ([("eventName", "Vibe Session"), ("dateTime", "2025-03-29T11:00:00Z")], 1)
  else if intentType = "email_intent" then
    if emailActive then ([], 0)
    else
      match o.gateway with
      | some _ =>
        match o.parsedJson with
        | some j => (j, 1)
        | none =>
          ([("to", (r.emailToMatch text).getD "MISSING"),
            ("subject", (r.subjectMatch text).getD "MISSING"),
            ("body", (r.bodyMatch text).getD "MISSING")], 1)
      | none =>
        ([("to", (r.catchToMatch text).getD "friend@example.com"),
          ("subject", (r.subjectMatch text).getD "AI Vibes"),
          ("body", (r.bodyMatch text).getD "Hello from AI assistant")], 1)
  else ([], 0)

/-! ## Scheduling flow (schedulingFlow, src/unnamed/part_004)

`handleScheduleIntent` wraps its whole body in one try/catch.  Its
collaborators are total in the source (`parseDateAndTime`,
`checkForConflicts`, `analyzeEventPatterns`, `findAvailableTimeSlots`
and `createCalendarEvent` catch internally), but the parsed JSON is
dynamically typed: a truthy non-string `time` makes
`parsed.time.split(':')` raise a TypeError that reaches the catch,
which logs and returns a recovery message WITHOUT resetting the state.
The body is modelled with `Except`, the state at the raise point
threaded through; the wrapper is the catch.  Collaborator results
enter as oracle values; `mkDate` is the `new Date(string)` timestamp
of a date string, `iso` is `Date.toISOString`, `fmtDate` is
`formatDate`, and `fmtDur` renders the duration number. -/

inductive SchedStage
  | init
  | parsing_request
  | collecting_date
  | suggesting_time
  | confirming
deriving Repr, DecidableEq

/-- A truthy JSON `time` value.  `timeStr raw hh mm` is a well-formed
"HH:MM" string with its split fields; `nonString` is any other truthy
value, on which `split` raises.  (A truthy malformed string instead
raises at `toISOString` on the invalid date, reaching the same catch
with the same state.) -/
inductive TimeVal
  | timeStr (raw : String) (hh mm : Int)
  | nonString
deriving Repr, DecidableEq

/-- The parse result the flow consumes, after the source's spread over
the defaults (`duration` is 60 when the JSON lacks it); `description`,
`attendees` and `location` are carried into event details only, and
`dateObj` (a `Date` copy of `date`) duplicates `date`; all are
omitted. -/
structure ParsedDT where
  date : Option String
  time : Option TimeVal
  duration : Int
  title : String
deriving Repr, DecidableEq

/-- A suggestion as stored in `suggestedTimes`: ISO start and end
(`stop` is the source's `end`) plus display text. -/
structure Suggestion where
  start : String
  stop : String
  displayText : String
deriving Repr, DecidableEq

structure SchedData where
  title : String
  date : Option String
  time : Option TimeVal
  duration : Int
  suggestedTimes : List Suggestion
  startTime : Option String
  endTime : Option String
  startTimestamp : Int
deriving Repr, DecidableEq

structure SchedState where
  active : Bool
  stage : SchedStage
  data : SchedData
deriving Repr, DecidableEq

/-- Oracle outcomes of the collaborator calls one scheduling turn can
make (each total in the source).  `parsed` is the turn's
`parseDateAndTime` result; the activation and `collecting_date`
branches each call it at most once per turn. -/
structure SchedOracle where
  parsed : ParsedDT
  conflicts : Nat
  suggestions : List Suggestion
  fallbackSlots : List Suggestion
deriving Repr, DecidableEq

/-- `/^[1-5]$/.test(t)` with `parseInt(t) - 1`. -/
def digitSel (t : String) : Option Nat :=
  if t = "1" then some 0
  else if t = "2" then some 1
  else if t = "3" then some 2
  else if t = "4" then some 3
  else if t = "5" then some 4
  else none

/-- The numbered option list `1. ... \n 2. ...`. -/
def numberOptions (suggestions : List Suggestion) : String :=
  String.intercalate "\n"
    (suggestions.enum.map (fun p => toString (p.1 + 1) ++ ". " ++ p.2.displayText))

/-- `suggestAvailableTimes()`: pattern-analyzer suggestions, falling
back to the deterministic slot finder when they are empty; the result
is stored in `suggestedTimes` and presented numbered. -/
def suggestAvailableTimes (o : SchedOracle) (st : SchedState) :
    String × SchedState :=
  let suggestions :=
    if o.suggestions.length = 0 then o.fallbackSlots else o.suggestions
  let d1 := { st.data with suggestedTimes := suggestions }
  let st1 := { st with data := d1 }
  ((if suggestions.length ≠ 0 then
      "Based on your event purpose and existing calendar patterns, here are some optimal time slot suggestions:\n"
        ++ numberOptions suggestions
        ++ "\nSelect a slot by entering its number (1-"
        ++ toString suggestions.length ++ ")."
    else
      "No available time slots found for the selected day."), st1)

/-- The body of `handleScheduleIntent(userInput)` up to its catch:
`Except.error` is an uncaught raise, paired with the state as mutated
up to that point. -/
def handleScheduleBody (mkDate : String → Int) (iso : Int → String)
    (fmtDate : Int → String) (fmtDur : Int → String) (o : SchedOracle)
    (now : Int) (st : SchedState) (input : String) :
    Except Unit String × SchedState :=
  if input = "" then
    (Except.ok "Please provide details for what you'd like to schedule.", st)
  else if st.active = false then
    let d0 : SchedData :=
      { title := o.parsed.title, date := o.parsed.date, time := o.parsed.time,
        duration := o.parsed.duration, suggestedTimes := [],
        startTime := none, endTime := none, startTimestamp := now }
    let st1 : SchedState :=
      { active := true, stage := .parsing_request, data := d0 }
    match o.parsed.date with
    | some d =>
      if d ≠ "" then
        match o.parsed.time with
        | some (TimeVal.timeStr raw hh mm) =>
          let startTs := mkDate d + (hh * 60 + mm) * 60000
          let endTs := startTs + st1.data.duration * 60000
          let d2 := { st1.data with startTime := some (iso startTs),
                                    endTime := some (iso endTs) }
          if startTs < now ∨ o.conflicts ≠ 0 then
            let r := suggestAvailableTimes o
              { st1 with stage := .suggesting_time, data := d2 }
            (Except.ok r.1, r.2)
          else
            (Except.ok ("I'll schedule \"" ++ st1.data.title ++ "\" on "
               ++ fmtDate (mkDate d) ++ " at " ++ raw ++ " for "
               ++ fmtDur st1.data.duration
               ++ " minutes. Does this look correct? (yes/no)"),
             { st1 with stage := .confirming, data := d2 })
        | some TimeVal.nonString =>
          (Except.error (), st1)
        | none =>
          let r := suggestAvailableTimes o { st1 with stage := .suggesting_time }
          (Except.ok r.1, r.2)
      else
        (Except.ok ("What date would you like to schedule \""
           ++ st1.data.title ++ "\" for?"),
         { st1 with stage := .collecting_date })
    | none =>
      (Except.ok ("What date would you like to schedule \""
         ++ st1.data.title ++ "\" for?"),
       { st1 with stage := .collecting_date })
  else if now - st.data.startTimestamp > 10 * 60 * 1000 then
    (Except.ok "The scheduling session timed out. Let's start over.",
     { st with active := false })
  else
    match st.stage with
    | .collecting_date =>
      match o.parsed.date with
      | some d =>
        if d ≠ "" then
          let d1 := { st.data with date := some d }
          let r := suggestAvailableTimes o
            { st with stage := .suggesting_time, data := d1 }
          (Except.ok r.1, r.2)
        else
          (Except.ok "I couldn't understand the date. Please provide a valid date.",
           st)
      | none =>
        (Except.ok "I couldn't understand the date. Please provide a valid date.",
         st)
    | .suggesting_time =>
      match digitSel (trimChars input) with
      | some idx =>
        match st.data.suggestedTimes[idx]? with
        | some sel =>
          let d1 := { st.data with startTime := some sel.start,
                                   endTime := some sel.stop }
          (Except.ok ("I'll schedule \"" ++ st.data.title ++ "\" for "
             ++ sel.displayText ++ ". Does this look correct? (yes/no)"),
           { st with stage := .confirming, data := d1 })
        | none =>
          (Except.ok "Please select a valid option.", st)
      | none =>
        (Except.ok "Please select a valid option or provide a specific time.",
         st)
    | .confirming =>
      if toLowerAscii input = "yes" then
        (Except.ok ("Your event \"" ++ st.data.title
           ++ "\" has been scheduled successfully!"),
         { st with active := false })
      else if toLowerAscii input = "no" then
        (Except.ok "Okay, let's start over.", { st with active := false })
      else
        (Except.ok "Please respond with 'yes' or 'no'.", st)
    | _ =>
      (Except.ok "I'm not sure how to proceed. Can you clarify?", st)

/-- `handleScheduleIntent` with its catch: a raise produces the
generic recovery message and keeps the state exactly as the body left
it (the catch does not reset `active`). -/
def handleScheduleIntent (mkDate : String → Int) (iso : Int → String)
    (fmtDate : Int → String) (fmtDur : Int → String) (o : SchedOracle)
    (now : Int) (st : SchedState) (input : String) : String × SchedState :=
  match handleScheduleBody mkDate iso fmtDate fmtDur o now st input with
  | (Except.ok msg, st1) => (msg, st1)
  | (Except.error _, st1) =>
    ("I encountered an error while trying to schedule. Please try again.", st1)

/-! ## Dialogue orchestrator (`processInput` of services/chat.js,
stored under src/services/auth/googleAuth.js, lines 571-739)

The in-memory `conversationHistory` holds role-tagged messages whose
content is plain text or one of the two JSON marker payloads the
orchestrator itself writes; `Message.create` appends to the durable
per-session store, modelled as (sessionId, role, content) rows.
`confirmCalendarEvent`, `handleTimeSelection`, `research` and chat
generation are collaborator oracles; the active mail flow runs the
embedded `handleEmailIntent`.  `saveConversation` writes the separate
`Chat` collection and is not modelled. -/

inductive MsgContent
  | text (s : String)
  | pendingEvent (pendingId eventName : String)
  | suggestionsCtx (suggestions : List Suggestion) (parsedInput : ParsedDT)
deriving Repr, DecidableEq

structure ConvMsg where
  role : String
  content : MsgContent
deriving Repr, DecidableEq

/-- `content.includes('pendingCalendarEvent')` holds exactly of the
pending-confirmation marker payloads. -/
def isPendingMarker : MsgContent → Bool
  | .pendingEvent _ _ => true
  | _ => false

/-- `content.includes('calendarSuggestions')` holds exactly of the
suggestion-context marker payloads. -/
def isSuggestionMarker : MsgContent → Bool
  | .suggestionsCtx _ _ => true
  | _ => false

/-- `msg.content.includes(pendingId)`: a pending marker's JSON text
contains its id and event name; plain text may mention the id; a
suggestion payload is taken not to. -/
def contentMentions (c : MsgContent) (pid : String) : Bool :=
  match c with
  | .text s => containsSubstr s pid
  | .pendingEvent id name => containsSubstr id pid || containsSubstr name pid
  | .suggestionsCtx _ _ => false

/-- A JavaScript alternation regex `/a|b|.../` used via `.match`:
matches when some alternative occurs as a substring. -/
def matchesAny (s : String) (pats : List String) : Bool :=
  pats.any (fun p => containsSubstr s p)

/-- The calendar dispatch's return shape: a plain string, an object
with `requiresChoice`, or another object whose message is surfaced
(with a pending-confirmation marker stored when `requiresConfirmation`
and a `pendingId` are present). -/
inductive CalResp
  | plain (msg : String)
  | choice (msg : String) (suggestions : List Suggestion) (parsedInput : ParsedDT)
  | confirmObj (msg : String) (pendingId : Option String) (eventName : String)
deriving Repr, DecidableEq

structure OrchState where
  durable : List (String × String × String)
  history : List ConvMsg
  emailState : EmailState
deriving Repr, DecidableEq

/-- Collaborator oracles for one orchestrator turn. -/
structure OrchOracle where
  confirmCal : Bool → String
  timeSel : String
  classifyGateway : Option String
  extractO : ExtractOracle
  regexes : RegexLib
  nowIso : String
  tomorrowIso : String
  researchResult : String
  calResp : CalResp
  chatGen : Option String
  chatErrMsg : String
  emailMatch : String → Option String
  mailO : MailOracle

/-- `classifyIntent(text)`: category-token containment over the
gateway's lowercased response, then keyword containment over the
lowercased input, defaulting to chat; a gateway failure also defaults
to chat. -/
def classifyIntent (gateway : Option String) (text : String) : String :=
  match gateway with
  | some resp =>
    if containsSubstr (toLowerAscii resp) "research_intent" then "research_intent"
    else if containsSubstr (toLowerAscii resp) "calendar_intent" then "calendar_intent"
    else if containsSubstr (toLowerAscii resp) "email_intent" then "email_intent"
    else if containsSubstr (toLowerAscii resp) "exit_intent" then "exit_intent"
    else if containsSubstr (toLowerAscii text) "research" then "research_intent"
    else if containsSubstr (toLowerAscii text) "schedule" then "calendar_intent"
    else if containsSubstr (toLowerAscii text) "email" then "email_intent"
    else if containsSubstr (toLowerAscii text) "quit" then "exit_intent"
    else "chat_intent"
  | none => "chat_intent"

/-- `checkForPendingCalendarEvents(userInput)`: acts on the most
recent pending-confirmation marker; confirm and deny phrasings are
substring alternations; any other input returns `null` and the turn
falls through with the marker kept. -/
def checkForPendingCalendarEvents (confirmCal : Bool → String)
    (input : String) (history : List ConvMsg) :
    Option (String × List ConvMsg) :=
  let pendings :=
    history.filter (fun m => m.role == "system" && isPendingMarker m.content)
  match pendings.getLast? with
  | some m =>
    match m.content with
    | MsgContent.pendingEvent pid _ =>
      if matchesAny (toLowerAscii input)
          ["yes", "confirm", "ok", "sure", "schedule it"] then
        some (confirmCal true,
          history.filter
            (fun m2 => !(m2.role == "system" && contentMentions m2.content pid)))
      else if matchesAny (toLowerAscii input)
          ["no", "cancel", "don't", "dont", "nope"] then
        some (confirmCal false,
          history.filter
            (fun m2 => !(m2.role == "system" && contentMentions m2.content pid)))
      else none
    | _ => none
  | none => none

/-- The in-memory window after `conversationHistory.push(user)` and
the shift that keeps the last 10 messages. -/
def slideWindow (history : List ConvMsg) (input : String) : List ConvMsg :=
  let h := history ++ [({ role := "user", content := MsgContent.text input } : ConvMsg)]
  if h.length > 10 then h.tail else h

/-- The message the calendar dispatch surfaces: the plain string, or
the object's `message` field. -/
def calRespMsg : CalResp → String
  | .plain m => m
  | .choice m _ _ => m
  | .confirmObj m _ _ => m

/-- `entities.to` of an extraction result. -/
def emailEntityTo (ents : Entities) : Option String :=
  (ents.find? (fun p => p.1 == "to")).map (fun p => p.2)

/-- `processInput(userInput, sessionId, userId)`: persist the user
message, slide the in-memory window, then dispatch in order: pending
calendar confirmation, pending suggestion selection, active mail flow,
intent dispatch, general chat.  The durable assistant row is written
only on the fall-through paths after the intent switch; the
pending-confirmation, pending-suggestion, active-mail-flow and
successful general-chat paths return early without it. -/
def processInput (o : OrchOracle) (now : Int) (st : OrchState)
    (sessionId : String) (_userId : Option String) (input : String) :
    String × OrchState :=
  let dur1 := st.durable ++ [(sessionId, "user", input)]
  let h1 := slideWindow st.history input
  match checkForPendingCalendarEvents o.confirmCal input h1 with
  | some (resp, h2) =>
    (resp, { durable := dur1,
             history := h2 ++ [{ role := "assistant", content := MsgContent.text resp }],
             emailState := st.emailState })
  | none =>
    if (h1.filter
        (fun m => m.role == "system" && isSuggestionMarker m.content)).length ≠ 0 then
      let resp := o.timeSel
      let h2 := h1.filter (fun m => !(m.role == "system" && isSuggestionMarker m.content))
      (resp, { durable := dur1,
               history := h2 ++ [{ role := "assistant", content := MsgContent.text resp }],
               emailState := st.emailState })
    else if st.emailState.active then
      let r := handleEmailIntent o.emailMatch o.mailO now st.emailState input none
      (r.1, { durable := dur1,
              history := h1 ++ [{ role := "assistant", content := MsgContent.text r.1 }],
              emailState := r.2.1 })
    else
      let intent := classifyIntent o.classifyGateway input
      let ents := (extractEntities o.regexes o.extractO o.nowIso o.tomorrowIso
        input intent st.emailState.active).1
      if intent = "research_intent" then
        (o.researchResult,
         { durable := dur1 ++ [(sessionId, "assistant", o.researchResult)],
           history := h1 ++ [{ role := "assistant", content := MsgContent.text o.researchResult }],
           emailState := st.emailState })
      else if intent = "calendar_intent" then
        match o.calResp with
        | CalResp.plain msg =>
          (msg, { durable := dur1 ++ [(sessionId, "assistant", msg)],
                  history := h1 ++ [{ role := "assistant", content := MsgContent.text msg }],
                  emailState := st.emailState })
        | CalResp.choice msg sug par =>
          (msg, { durable := dur1 ++ [(sessionId, "assistant", msg)],
                  history := h1 ++
                    [{ role := "system", content := MsgContent.suggestionsCtx sug par },
                     { role := "assistant", content := MsgContent.text msg }],
                  emailState := st.emailState })
        | CalResp.confirmObj msg pid en =>
          let h2 := match pid with
            | some p => h1 ++ [{ role := "system", content := MsgContent.pendingEvent p en }]
            | none => h1
          (msg, { durable := dur1 ++ [(sessionId, "assistant", msg)],
                  history := h2 ++ [{ role := "assistant", content := MsgContent.text msg }],
                  emailState := st.emailState })
      else if intent = "email_intent" then
        let eTo := emailEntityTo ents
        let r := handleEmailIntent o.emailMatch o.mailO now st.emailState input eTo
        (r.1, { durable := dur1 ++ [(sessionId, "assistant", r.1)],
                history := h1 ++ [{ role := "assistant", content := MsgContent.text r.1 }],
                emailState := r.2.1 })
      else if intent = "exit_intent" then
        ("Peace out!",
         { durable := dur1 ++ [(sessionId, "assistant", "Peace out!")],
           history := h1 ++ [{ role := "assistant", content := MsgContent.text "Peace out!" }],
           emailState := st.emailState })
      else
        match o.chatGen with
        | some reply =>
          (reply, { durable := dur1,
                    history := h1 ++ [{ role := "assistant", content := MsgContent.text reply }],
                    emailState := st.emailState })
        | none =>
          ("AI: Couldn't process that: " ++ o.chatErrMsg,
           { durable := dur1 ++
               [(sessionId, "assistant", "AI: Couldn't process that: " ++ o.chatErrMsg)],
             history := h1 ++
               [{ role := "assistant",
                  content := MsgContent.text ("AI: Couldn't process that: " ++ o.chatErrMsg) }],
             emailState := st.emailState })

/-- A concrete collaborator set used to exercise the orchestrator
paths on sample turns. -/
def demoOracle : OrchOracle :=
  { confirmCal := fun b => if b then "Scheduled!" else "Cancelled",
    timeSel := "picked",
    classifyGateway := none,
    extractO := { gateway := none, parsedJson := none },
    regexes := { calledMatch := fun _ => none, scheduleMatch := fun _ => none,
                 emailToMatch := fun _ => none, subjectMatch := fun _ => none,
                 bodyMatch := fun _ => none, catchToMatch := fun _ => none },
    nowIso := "", tomorrowIso := "", researchResult := "findings",
    calResp := CalResp.plain "calmsg",
    chatGen := some "hello there", chatErrMsg := "boom",
    emailMatch := fun _ => none,
    mailO := { ctxVerdict := { hasAllContext := true, missingInfo := none },
               genResult := none, sendResult := "" } }

/-- An inactive mail-flow state. -/
def demoEmailOff : EmailState :=
  { active := false, stage := EmailStage.collecting_recipient,
    data := { toAddr := "", subject := "", body := "", purpose := "", startTime := 0 } }

/-- An orchestrator state with an empty window and an empty store. -/
def demoState : OrchState :=
  { durable := [], history := [], emailState := demoEmailOff }

/-- A state whose window holds one pending-confirmation marker. -/
def demoPendingState : OrchState :=
  { durable := [],
    history := [{ role := "system", content := MsgContent.pendingEvent "p1" "Meet" }],
    emailState := demoEmailOff }

/-- A state whose window holds one suggestion-context marker. -/
def demoSuggestState : OrchState :=
  { durable := [],
    history := [{ role := "system",
                  content := MsgContent.suggestionsCtx []
                    { date := none, time := none, duration := 60, title := "" } }],
    emailState := demoEmailOff }

/-- A state with the mail flow active at the recipient stage. -/
def demoMailState : OrchState :=
  { durable := [], history := [],
    emailState := { active := true, stage := EmailStage.collecting_recipient,
                    data := { toAddr := "", subject := "", body := "",
                              purpose := "", startTime := 0 } } }

/-- Claim C9: with both clock times present and no duration, the
inferred duration is the end minus the start modulo 24 hours, a
nonpositive difference crossing midnight; start 14:00 / end 14:30
gives 30 and start 23:30 / end 00:15 gives 45.  (When the two clock
times are equal the code returns a full 24 hours, which is the
claim's nonpositive-crosses-midnight reading; the modulo form below is
stated for distinct clock times.) -/
theorem duration_inference_mod_24h :
    (∀ sh sm eh em : Int, 0 ≤ sh → sh < 24 → 0 ≤ sm → sm < 60 →
      0 ≤ eh → eh < 24 → 0 ≤ em → em < 60 →
      eh * 60 + em ≠ sh * 60 + sm →
      (applyDurationInference
        { time := some (sh, sm), endTime := some (eh, em), duration := none }).duration =
        some (((eh * 60 + em) - (sh * 60 + sm)) % (24 * 60))) ∧
    (applyDurationInference
      { time := some (14, 0), endTime := some (14, 30), duration := none }).duration =
      some 30 ∧
    (applyDurationInference
      { time := some (23, 30), endTime := some (0, 15), duration := none }).duration =
      some 45 := by
  refine ⟨?_, by decide, by decide⟩
  intro sh sm eh em h1 h2 h3 h4 h5 h6 h7 h8 hne
  simp only [applyDurationInference, durationTruthy, inferDuration]
  norm_num
  split <;> omega

/-- Witness for C9's universal part at start 09:00, end 10:30. -/
theorem duration_inference_mod_24h_witness :
    (applyDurationInference
      { time := some (9, 0), endTime := some (10, 30), duration := none }).duration =
      some ((((10 : Int) * 60 + 30) - (9 * 60 + 0)) % (24 * 60)) :=
  duration_inference_mod_24h.1 9 0 10 30 (by decide) (by decide) (by decide)
    (by decide) (by decide) (by decide) (by decide) (by decide) (by decide)

theorem mapHas_of_mapGet {c : Cache} {k : String} {it : CacheItem}
    (h : mapGet c k = some it) : mapHas c k = true := by
  unfold mapGet at h
  unfold mapHas
  cases hf : c.find? (fun p => p.1 == k) with
  | none => rw [hf] at h; simp at h
  | some p =>
    have hmem := List.mem_of_find?_eq_some hf
    have hp := List.find?_some hf
    exact List.any_eq_true.mpr ⟨p, hmem, hp⟩

/-- Claim C6: an entry whose expiry lies strictly before the current
time is reported absent by both `get` and `has`, and both delete it on
that access (no sweep involved).  The key is nonempty, as every key
stored through `set` is. -/
theorem cache_expired_entry_absent (now : Int) (c : Cache) (key : String)
    (item : CacheItem) (hk : key ≠ "") (hget : mapGet c key = some item)
    (hexp : item.expires < now) :
    cacheGet now c key = (none, mapDelete c key) ∧
    cacheHas now c key = (false, mapDelete c key) := by
  have hhas := mapHas_of_mapGet hget
  have hcond : ¬ (key = "" ∨ mapHas c key = false) := by
    simp [hk, hhas]
  constructor
  · unfold cacheGet
    rw [if_neg hcond, hget]
    simp [hexp]
  · unfold cacheHas
    rw [if_neg hcond, hget]
    simp [hexp]

theorem oldestPair_go (c : Cache) :
    ∀ q0 : String × CacheItem,
      ∃ r, c.foldl
          (fun acc p =>
            match acc with
            | none => some p
            | some q => if p.2.timestamp < q.2.timestamp then some p else some q)
          (some q0) = some r ∧
        (r = q0 ∨ r ∈ c) ∧ r.2.timestamp ≤ q0.2.timestamp ∧
        ∀ p ∈ c, r.2.timestamp ≤ p.2.timestamp := by
  induction c with
  | nil => intro q0; exact ⟨q0, rfl, Or.inl rfl, le_refl _, by simp⟩
  | cons a c ih =>
    intro q0
    by_cases hlt : a.2.timestamp < q0.2.timestamp
    · obtain ⟨r, hfold, hsrc, hle, hall⟩ := ih a
      refine ⟨r, ?_, ?_, ?_, ?_⟩
      · simpa [hlt] using hfold
      · rcases hsrc with h | h
        · exact Or.inr (h ▸ List.mem_cons_self a c)
        · exact Or.inr (List.mem_cons_of_mem a h)
      · exact le_trans hle (le_of_lt hlt)
      · intro p hp
        rcases List.mem_cons.mp hp with h | h
        · exact h ▸ hle
        · exact hall p h
    · obtain ⟨r, hfold, hsrc, hle, hall⟩ := ih q0
      refine ⟨r, ?_, ?_, hle, ?_⟩
      · simpa [hlt] using hfold
      · rcases hsrc with h | h
        · exact Or.inl h
        · exact Or.inr (List.mem_cons_of_mem a h)
      · intro p hp
        rcases List.mem_cons.mp hp with h | h
        · exact h ▸ le_trans hle (le_of_not_lt hlt)
        · exact hall p h

theorem oldestPair_spec {c : Cache} (h : c ≠ []) :
    ∃ r, oldestPair c = some r ∧ r ∈ c ∧
      ∀ p ∈ c, r.2.timestamp ≤ p.2.timestamp := by
  cases c with
  | nil => exact absurd rfl h
  | cons a c =>
    obtain ⟨r, hfold, hsrc, hle, hall⟩ := oldestPair_go c a
    refine ⟨r, ?_, ?_, ?_⟩
    · simpa [oldestPair] using hfold
    · rcases hsrc with hr | hr
      · exact hr ▸ List.mem_cons_self a c
      · exact List.mem_cons_of_mem a hr
    · intro p hp
      rcases List.mem_cons.mp hp with hp | hp
      · exact hp ▸ hle
      · exact hall p hp

theorem mapGet_of_mem_nodup {c : Cache} {p : String × CacheItem}
    (hnd : (c.map Prod.fst).Nodup) (hp : p ∈ c) : mapGet c p.1 = some p.2 := by
  induction c with
  | nil => simp at hp
  | cons a c ih =>
    rcases List.mem_cons.mp hp with h | h
    · subst h
      simp [mapGet, List.find?]
    · have hnd0 : a.1 ∉ c.map Prod.fst ∧ (c.map Prod.fst).Nodup := by
        rw [List.map_cons] at hnd
        exact List.nodup_cons.mp hnd
      have hne : a.1 ≠ p.1 := by
        intro he
        have : p.1 ∈ c.map Prod.fst := List.mem_map_of_mem Prod.fst h
        rw [← he] at this
        exact hnd0.1 this
      have hnd2 : (c.map Prod.fst).Nodup := hnd0.2
      have := ih hnd2 h
      simp only [mapGet, List.find?] at this ⊢
      have hbeq : (a.1 == p.1) = false := beq_false_of_ne hne
      rw [hbeq]
      exact this

theorem mapDelete_length_of_mem {c : Cache} {p : String × CacheItem}
    (hnd : (c.map Prod.fst).Nodup) (hp : p ∈ c) :
    (mapDelete c p.1).length + 1 = c.length := by
  induction c with
  | nil => simp at hp
  | cons a c ih =>
    have hnd1 : a.1 ∉ c.map Prod.fst ∧ (c.map Prod.fst).Nodup := by
      rw [List.map_cons] at hnd
      exact List.nodup_cons.mp hnd
    rcases List.mem_cons.mp hp with h | h
    · subst h
      have hfilter : mapDelete (p :: c) p.1 = c := by
        unfold mapDelete
        rw [List.filter_cons, if_neg (by simp)]
        refine List.filter_eq_self.mpr ?_
        intro q hq
        have hq1 : q.1 ∈ c.map Prod.fst := List.mem_map_of_mem Prod.fst hq
        have : q.1 ≠ p.1 := fun he => hnd1.1 (he ▸ hq1)
        simpa using this
      rw [hfilter]
      simp
    · have hne : (a.1 != p.1) = true := by
        have : a.1 ≠ p.1 := by
          intro he
          exact hnd1.1 (he ▸ List.mem_map_of_mem Prod.fst h)
        simpa using this
      have := ih hnd1.2 h
      unfold mapDelete at this ⊢
      rw [List.filter_cons, if_pos (by simp [hne])]
      simp only [List.length_cons]
      omega

theorem mapHas_filter_false {c : Cache} {k : String} (f : String × CacheItem → Bool)
    (h : mapHas c k = false) : mapHas (c.filter f) k = false := by
  unfold mapHas at h ⊢
  rw [List.any_eq_false] at h ⊢
  intro p hp
  exact h p (List.mem_of_mem_filter hp)

/-- Claim C7: `set` on a full cache with a new key evicts exactly one
entry, the one `getOldestKey` names, whose creation timestamp is
minimal among all existing entries; the new item is then appended.
Keys of a JS `Map` are pairwise distinct, and the cache is nonempty
(it holds at least `maxSize ≥ 1` entries). -/
theorem cacheSet_evicts_oldest (opts : CacheOptions) (now ttl : Int)
    (c : Cache) (key v : String) (hk : key ≠ "")
    (hcap : opts.maxSize ≤ c.length) (hnew : mapHas c key = false)
    (hne : c ≠ []) (hnd : (c.map Prod.fst).Nodup) :
    (getOldestKey c).isSome = true ∧
    (∀ ok it, getOldestKey c = some ok → mapGet c ok = some it →
      ∀ p ∈ c, it.timestamp ≤ p.2.timestamp) ∧
    (∀ ok, getOldestKey c = some ok →
      (cacheSet opts now c key v ttl).2 =
        mapDelete c ok ++ [(key, { value := v, expires := now + ttl, timestamp := now })] ∧
      (mapDelete c ok).length + 1 = c.length) := by
  obtain ⟨r, hr, hrmem, hrmin⟩ := oldestPair_spec hne
  have hok : getOldestKey c = some r.1 := by
    unfold getOldestKey
    rw [hr]
    rfl
  refine ⟨by rw [hok]; rfl, ?_, ?_⟩
  · intro ok it h1 h2 p hp
    rw [hok] at h1
    have hok1 : ok = r.1 := by injection h1 with h; exact h.symm
    subst hok1
    have := mapGet_of_mem_nodup hnd hrmem
    rw [this] at h2
    injection h2 with h2
    exact h2 ▸ hrmin p hp
  · intro ok h1
    rw [hok] at h1
    have hok1 : ok = r.1 := by injection h1 with h; exact h.symm
    subst hok1
    constructor
    · unfold cacheSet
      rw [if_neg hk]
      simp only [if_pos (And.intro hcap hnew), hok]
      have hdel : mapHas (mapDelete c r.1) key = false :=
        mapHas_filter_false _ hnew
      unfold mapSet
      rw [hdel]
      simp
    · exact mapDelete_length_of_mem hnd hrmem

/-- Witness for C7: a two-entry cache at capacity 2; key "a" has the
older timestamp and is the one evicted. -/
theorem cacheSet_evicts_oldest_witness :
    (cacheSet { maxSize := 2, defaultTTL := 60 } 10
        [("a", { value := "x", expires := 100, timestamp := 1 }),
         ("b", { value := "y", expires := 100, timestamp := 2 })] "c" "v" 60).2 =
      mapDelete
        [("a", { value := "x", expires := 100, timestamp := 1 }),
         ("b", { value := "y", expires := 100, timestamp := 2 })] "a" ++
        [("c", { value := "v", expires := 70, timestamp := 10 })] ∧
    (mapDelete
        [("a", { value := "x", expires := 100, timestamp := 1 }),
         ("b", { value := "y", expires := 100, timestamp := 2 })] "a").length + 1 = 2 :=
  (cacheSet_evicts_oldest { maxSize := 2, defaultTTL := 60 } 10 60 _ "c" "v"
      (by decide) (by decide) (by decide) (by decide) (by decide)).2.2 "a" (by decide)

/-- Witness for C6 at a concrete expired entry. -/
theorem cache_expired_entry_absent_witness :
    cacheGet 11 [("k", { value := "v", expires := 10, timestamp := 5 })] "k" =
      (none, mapDelete [("k", { value := "v", expires := 10, timestamp := 5 })] "k") ∧
    cacheHas 11 [("k", { value := "v", expires := 10, timestamp := 5 })] "k" =
      (false, mapDelete [("k", { value := "v", expires := 10, timestamp := 5 })] "k") :=
  cache_expired_entry_absent 11 _ "k"
    { value := "v", expires := 10, timestamp := 5 }
    (by decide) (by decide) (by decide)

theorem slotLoopFuel_mem (limit durMs : Int) :
    ∀ (fuel : Nat) (s : Int), ∀ x ∈ slotLoopFuel limit durMs fuel s,
      s ≤ x.start ∧ x.stop = x.start + durMs ∧ x.start + durMs ≤ limit := by
  intro fuel
  induction fuel with
  | zero => intro s x hx; simp [slotLoopFuel] at hx
  | succ fuel ih =>
    intro s x hx
    simp only [slotLoopFuel] at hx
    by_cases hc : s + durMs ≤ limit
    · rw [if_pos hc] at hx
      rcases List.mem_cons.mp hx with h | h
      · subst h; exact ⟨le_refl _, rfl, hc⟩
      · obtain ⟨h1, h2, h3⟩ := ih (s + 30 * 60000) x h
        exact ⟨by omega, h2, h3⟩
    · rw [if_neg hc] at hx; simp at hx

theorem slotLoopFuel_chrono (limit durMs : Int) :
    ∀ (fuel : Nat) (s : Int), slotsChrono (slotLoopFuel limit durMs fuel s) := by
  intro fuel
  induction fuel with
  | zero => intro s; simp [slotLoopFuel, slotsChrono]
  | succ fuel ih =>
    intro s
    unfold slotsChrono
    simp only [slotLoopFuel]
    by_cases hc : s + durMs ≤ limit
    · rw [if_pos hc]
      refine List.Pairwise.cons ?_ (ih (s + 30 * 60000))
      intro x hx
      have h1 := (slotLoopFuel_mem limit durMs fuel (s + 30 * 60000) x hx).1
      show s ≤ x.start
      omega
    · rw [if_neg hc]
      exact List.Pairwise.nil

theorem slotLoop_mem (s limit durMs : Int) :
    ∀ x ∈ slotLoop s limit durMs,
      s ≤ x.start ∧ x.stop = x.start + durMs ∧ x.start + durMs ≤ limit :=
  slotLoopFuel_mem limit durMs _ s

theorem slotLoop_chrono (s limit durMs : Int) :
    slotsChrono (slotLoop s limit durMs) :=
  slotLoopFuel_chrono limit durMs _ s

theorem processEvent_inv (durMs : Int) (hd : 0 ≤ durMs) (ev : CalEvent)
    (hwf : eventWellFormed ev) (acc : List Slot) (cur : Int)
    (hch : slotsChrono acc) (hb : ∀ x ∈ acc, x.start ≤ cur) :
    slotsChrono (processEvent durMs (acc, cur) ev).1 ∧
    (∀ x ∈ (processEvent durMs (acc, cur) ev).1,
      x.start ≤ (processEvent durMs (acc, cur) ev).2) ∧
    cur ≤ (processEvent durMs (acc, cur) ev).2 := by
  cases hse : ev.startDateTime with
  | none =>
    simp only [processEvent, hse]
    exact ⟨hch, hb, le_refl _⟩
  | some es =>
    obtain ⟨ee, hee, hsle⟩ := hwf es hse
    simp only [processEvent, hse, hee]
    have hcur : cur ≤ (if ee > cur then ee else cur) ∧
        ee ≤ (if ee > cur then ee else cur) := by
      split <;> omega
    by_cases hgap : es > cur ∧ es - cur ≥ durMs
    · rw [if_pos hgap]
      refine ⟨?_, ?_, hcur.1⟩
      · unfold slotsChrono at hch ⊢
        rw [List.pairwise_append]
        refine ⟨hch, slotLoop_chrono cur es durMs, ?_⟩
        intro a ha b hb2
        have := (slotLoop_mem cur es durMs b hb2).1
        have := hb a ha
        omega
      · intro x hx
        rcases List.mem_append.mp hx with h | h
        · have := hb x h
          omega
        · obtain ⟨h1, h2, h3⟩ := slotLoop_mem cur es durMs x h
          omega
    · rw [if_neg hgap]
      refine ⟨hch, ?_, hcur.1⟩
      intro x hx
      have := hb x hx
      omega

theorem foldl_processEvent_inv (durMs : Int) (hd : 0 ≤ durMs) :
    ∀ (evs : List CalEvent), (∀ e ∈ evs, eventWellFormed e) →
    ∀ (acc : List Slot) (cur : Int), slotsChrono acc →
      (∀ x ∈ acc, x.start ≤ cur) →
      slotsChrono (evs.foldl (processEvent durMs) (acc, cur)).1 ∧
      ∀ x ∈ (evs.foldl (processEvent durMs) (acc, cur)).1,
        x.start ≤ (evs.foldl (processEvent durMs) (acc, cur)).2 := by
  intro evs
  induction evs with
  | nil =>
    intro _ acc cur h1 h2
    exact ⟨h1, h2⟩
  | cons e evs ih =>
    intro hwf acc cur h1 h2
    simp only [List.foldl_cons]
    obtain ⟨g1, g2, g3⟩ :=
      processEvent_inv durMs hd e (hwf e (List.mem_cons_self e evs)) acc cur h1 h2
    have hmain := ih (fun f hf => hwf f (List.mem_cons_of_mem e hf))
      (processEvent durMs (acc, cur) e).1 (processEvent durMs (acc, cur) e).2 g1 g2
    simpa using hmain

theorem mem_sortInsert (x e : CalEvent) :
    ∀ l : List CalEvent, x ∈ sortInsert e l → x = e ∨ x ∈ l := by
  intro l
  induction l with
  | nil => intro h; simpa [sortInsert] using h
  | cons f fs ih =>
    intro h
    simp only [sortInsert] at h
    by_cases hc : eventSortKey f ≤ eventSortKey e
    · rw [if_pos hc] at h
      rcases List.mem_cons.mp h with h | h
      · exact Or.inr (h ▸ List.mem_cons_self f fs)
      · rcases ih h with h | h
        · exact Or.inl h
        · exact Or.inr (List.mem_cons_of_mem f h)
    · rw [if_neg hc] at h
      rcases List.mem_cons.mp h with h | h
      · exact Or.inl h
      · exact Or.inr h

theorem mem_sortEvents_fold (x : CalEvent) :
    ∀ (l acc : List CalEvent),
      x ∈ l.foldl (fun a e => sortInsert e a) acc → x ∈ acc ∨ x ∈ l := by
  intro l
  induction l with
  | nil => intro acc h; exact Or.inl h
  | cons e l ih =>
    intro acc h
    simp only [List.foldl_cons] at h
    rcases ih (sortInsert e acc) h with h | h
    · rcases mem_sortInsert x e acc h with h | h
      · exact Or.inr (h ▸ List.mem_cons_self e l)
      · exact Or.inl h
    · exact Or.inr (List.mem_cons_of_mem e h)

theorem mem_sortEvents {x : CalEvent} {events : List CalEvent}
    (h : x ∈ sortEvents events) : x ∈ events := by
  rcases mem_sortEvents_fold x events [] h with h | h
  · simp at h
  · exact h

theorem slotLoopFuel_shift (d limit durMs : Int) :
    ∀ (fuel : Nat) (s : Int),
      slotLoopFuel (limit + d) durMs fuel (s + d) =
        (slotLoopFuel limit durMs fuel s).map (slotShift d) := by
  intro fuel
  induction fuel with
  | zero => intro s; simp [slotLoopFuel]
  | succ fuel ih =>
    intro s
    simp only [slotLoopFuel]
    by_cases hc : s + durMs ≤ limit
    · rw [if_pos (by omega : s + d + durMs ≤ limit + d), if_pos hc]
      rw [List.map_cons]
      have h1 : slotShift d { start := s, stop := s + durMs } =
          { start := s + d, stop := s + d + durMs } := by
        simp only [slotShift, Slot.mk.injEq]
        exact ⟨trivial, by omega⟩
      rw [h1]
      have harg : s + d + 30 * 60000 = s + 30 * 60000 + d := by ring
      rw [harg, ih (s + 30 * 60000)]
    · rw [if_neg (by omega : ¬ (s + d + durMs ≤ limit + d)), if_neg hc]
      simp

/-- Claim C8 (amended): on a day that is not today, with no events and
a 60-minute duration, the returned slots are exactly 09:00-10:00
through 11:00-12:00 at 30-minute steps (first start 09:00, consecutive
starts 30 minutes apart, no end past 17:00); for every input at most 5
slots are returned; and the slots are in chronological order whenever
the duration is nonnegative and every timed event carries an end no
earlier than its start.  The order clause fails for arbitrary event
lists (see the counterexample with an end-before-start event). -/
theorem findAvailableTimeSlots_slots :
    (∀ dayMid now : Int,
      findAvailableTimeSlots dayMid false now [] 60 =
        [{ start := dayMid + 32400000, stop := dayMid + 36000000 },
         { start := dayMid + 34200000, stop := dayMid + 37800000 },
         { start := dayMid + 36000000, stop := dayMid + 39600000 },
         { start := dayMid + 37800000, stop := dayMid + 41400000 },
         { start := dayMid + 39600000, stop := dayMid + 43200000 }]) ∧
    (∀ (dayMid now duration : Int) (isToday : Bool) (events : List CalEvent),
      (findAvailableTimeSlots dayMid isToday now events duration).length ≤ 5) ∧
    (∀ (dayMid now duration : Int) (isToday : Bool) (events : List CalEvent),
      0 ≤ duration → (∀ e ∈ events, eventWellFormed e) →
      slotsChrono (findAvailableTimeSlots dayMid isToday now events duration)) := by
  refine ⟨?_, ?_, ?_⟩
  · intro dayMid now
    have hds : (if (false : Bool) ∧ now > dayMid + 9 * 60 * 60000 then roundUpTo30 now
        else dayMid + 9 * 60 * 60000) = dayMid + 9 * 60 * 60000 := by
      rw [if_neg]
      simp
    simp only [findAvailableTimeSlots, sortEvents, List.foldl_nil, hds]
    rw [if_pos (show (dayMid + 9 * 60 * 60000 : Int) < dayMid + 17 * 60 * 60000 by omega)]
    rw [List.nil_append]
    have key : slotLoop (dayMid + 9 * 60 * 60000) (dayMid + 17 * 60 * 60000)
        (60 * 60 * 1000) =
        (slotLoopFuel 61200000 3600000 15 32400000).map (slotShift dayMid) := by
      unfold slotLoop
      have hfuel : (dayMid + 17 * 60 * 60000 - 60 * 60 * 1000 -
          (dayMid + 9 * 60 * 60000)).toNat / (30 * 60000) + 1 = 15 := by omega
      rw [hfuel]
      have h1 : dayMid + 17 * 60 * 60000 = (61200000 : Int) + dayMid := by ring
      have h2 : dayMid + 9 * 60 * 60000 = (32400000 : Int) + dayMid := by ring
      have h3 : (60 * 60 * 1000 : Int) = 3600000 := by norm_num
      rw [h1, h2, h3, slotLoopFuel_shift]
    rw [key, ← List.map_take]
    have hbase : (slotLoopFuel 61200000 3600000 15 32400000).take 5 =
        [{ start := 32400000, stop := 36000000 },
         { start := 34200000, stop := 37800000 },
         { start := 36000000, stop := 39600000 },
         { start := 37800000, stop := 41400000 },
         { start := 39600000, stop := 43200000 }] := by decide
    rw [hbase]
    simp only [List.map_cons, List.map_nil, slotShift, List.cons.injEq,
      Slot.mk.injEq, and_true]
    omega
  · intro dayMid now duration isToday events
    simp only [findAvailableTimeSlots, List.length_take]
    omega
  · intro dayMid now duration isToday events hdur hwf
    have hd : (0 : Int) ≤ duration * 60 * 1000 := by positivity
    obtain ⟨g1, g2⟩ := foldl_processEvent_inv (duration * 60 * 1000) hd
      (sortEvents events) (fun e he => hwf e (mem_sortEvents he))
      [] (if isToday ∧ now > dayMid + 9 * 60 * 60000 then roundUpTo30 now
          else dayMid + 9 * 60 * 60000)
      List.Pairwise.nil (by simp)
    simp only [findAvailableTimeSlots]
    unfold slotsChrono
    refine List.Pairwise.sublist (List.take_sublist 5 _) ?_
    by_cases hlt : ((sortEvents events).foldl (processEvent (duration * 60 * 1000))
        ([], if isToday ∧ now > dayMid + 9 * 60 * 60000 then roundUpTo30 now
             else dayMid + 9 * 60 * 60000)).2 < dayMid + 17 * 60 * 60000
    · rw [if_pos hlt]
      rw [List.pairwise_append]
      refine ⟨g1, slotLoop_chrono _ _ _, ?_⟩
      intro a ha b hb
      have h1 := g2 a ha
      have h2 := (slotLoop_mem _ _ _ b hb).1
      omega
    · rw [if_neg hlt]
      exact g1

/-- Witness for C8: one well-formed event on the day keeps the output
chronological. -/
theorem findAvailableTimeSlots_slots_witness :
    slotsChrono (findAvailableTimeSlots 0 false 0
      [{ startDateTime := some 36000000, startDate := 0,
         endDateTime := some 37800000 }] 60) :=
  findAvailableTimeSlots_slots.2.2 0 0 60 false _ (by norm_num)
    (by
      intro e he s hs
      rw [List.mem_singleton] at he
      subst he
      simp only at hs
      refine ⟨37800000, rfl, ?_⟩
      injection hs with hs
      omega)

/-- Counterexample to C8 as stated: with an event whose recorded end
(09:30) precedes its start (12:00), the cursor never passes the gap
slots already emitted, and the returned slots are not in chronological
order (starts 9:00, 10:30, 11:00, 10:30, 11:00). -/
theorem findAvailableTimeSlots_chrono_cex :
    (findAvailableTimeSlots 0 false 0
        [{ startDateTime := some 36000000, startDate := 0,
           endDateTime := some 37800000 },
         { startDateTime := some 43200000, startDate := 0,
           endDateTime := some 34200000 }] 60).map Slot.start =
      [32400000, 37800000, 39600000, 37800000, 39600000] ∧
    ¬ slotsChrono (findAvailableTimeSlots 0 false 0
        [{ startDateTime := some 36000000, startDate := 0,
           endDateTime := some 37800000 },
         { startDateTime := some 43200000, startDate := 0,
           endDateTime := some 34200000 }] 60) := by
  have hval : findAvailableTimeSlots 0 false 0
      [{ startDateTime := some 36000000, startDate := 0,
         endDateTime := some 37800000 },
       { startDateTime := some 43200000, startDate := 0,
         endDateTime := some 34200000 }] 60 =
      [{ start := 32400000, stop := 36000000 },
       { start := 37800000, stop := 41400000 },
       { start := 39600000, stop := 43200000 },
       { start := 37800000, stop := 41400000 },
       { start := 39600000, stop := 43200000 }] := by decide
  rw [hval]
  constructor
  · decide
  · intro h
    unfold slotsChrono at h
    simp only [List.pairwise_cons, List.mem_cons] at h
    have := h.2.2.1 { start := 37800000, stop := 41400000 } (by simp)
    simp at this

/-- Claim C1: at `confirming`, an input whose lowercased text contains
"no" and not "yes" makes no send call and moves the flow to `editing`
(still active); at `editing`, such an input again makes no send call;
at `confirming`, an input containing "yes" makes exactly one send call
after which the flow is reset to inactive, and an input not containing
"yes" makes no send call.  The turn is within the 15-minute idle
window, so the timeout reset does not preempt the stage. -/
theorem email_confirming_no_yes (emailMatch : String → Option String)
    (o : MailOracle) (now : Int) (st : EmailState) (input : String)
    (eTo : Option String) (hact : st.active = true)
    (htime : now - st.data.startTime ≤ 15 * 60 * 1000) :
    (st.stage = EmailStage.confirming →
      containsSubstr (toLowerAscii input) "no" = true →
      containsSubstr (toLowerAscii input) "yes" = false →
      (handleEmailIntent emailMatch o now st input eTo).2.2 = 0 ∧
      (handleEmailIntent emailMatch o now st input eTo).2.1.stage = EmailStage.editing ∧
      (handleEmailIntent emailMatch o now st input eTo).2.1.active = true) ∧
    (st.stage = EmailStage.editing →
      containsSubstr (toLowerAscii input) "no" = true →
      containsSubstr (toLowerAscii input) "yes" = false →
      (handleEmailIntent emailMatch o now st input eTo).2.2 = 0) ∧
    (st.stage = EmailStage.confirming →
      containsSubstr (toLowerAscii input) "yes" = true →
      (handleEmailIntent emailMatch o now st input eTo).2.2 = 1 ∧
      (handleEmailIntent emailMatch o now st input eTo).2.1 = emailStateReset) ∧
    (st.stage = EmailStage.confirming →
      containsSubstr (toLowerAscii input) "yes" = false →
      (handleEmailIntent emailMatch o now st input eTo).2.2 = 0) := by
  have hnact : ¬ (st.active = false) := by rw [hact]; simp
  have hnt : ¬ (now - st.data.startTime > 15 * 60 * 1000) := by omega
  have hnt2 : ¬ ((900000 : Int) < now - st.data.startTime) := by omega
  refine ⟨?_, ?_, ?_, ?_⟩
  · intro hs hno hyes
    simp [handleEmailIntent, hnact, hnt, hnt2, hs, hno, hyes, hact]
  · intro hs hno hyes
    simp only [handleEmailIntent, if_neg hnact, if_neg hnt, hs]
    split
    · rfl
    · split
      · rfl
      · split
        · rfl
        · rfl
  · intro hs hyes
    simp [handleEmailIntent, hnact, hnt, hnt2, hs, hyes]
  · intro hs hyes
    simp only [handleEmailIntent, if_neg hnact, if_neg hnt, hs, hyes,
      Bool.false_eq_true, if_false]
    split
    · rfl
    · rfl

/-- Witness for C1 at a concrete confirming-stage state with inputs
"no" and "yes please". -/
theorem email_confirming_no_yes_witness :
    ((handleEmailIntent (fun _ => none)
        { ctxVerdict := { hasAllContext := true, missingInfo := none },
          genResult := none, sendResult := "Email sent successfully!" } 0
        { active := true, stage := EmailStage.confirming,
          data := { toAddr := "a@b.com", subject := "s", body := "b",
                    purpose := "p", startTime := 0 } } "no" none).2.2 = 0 ∧
      (handleEmailIntent (fun _ => none)
        { ctxVerdict := { hasAllContext := true, missingInfo := none },
          genResult := none, sendResult := "Email sent successfully!" } 0
        { active := true, stage := EmailStage.confirming,
          data := { toAddr := "a@b.com", subject := "s", body := "b",
                    purpose := "p", startTime := 0 } } "no" none).2.1.stage =
        EmailStage.editing ∧
      (handleEmailIntent (fun _ => none)
        { ctxVerdict := { hasAllContext := true, missingInfo := none },
          genResult := none, sendResult := "Email sent successfully!" } 0
        { active := true, stage := EmailStage.confirming,
          data := { toAddr := "a@b.com", subject := "s", body := "b",
                    purpose := "p", startTime := 0 } } "no" none).2.1.active = true) ∧
    ((handleEmailIntent (fun _ => none)
        { ctxVerdict := { hasAllContext := true, missingInfo := none },
          genResult := none, sendResult := "Email sent successfully!" } 0
        { active := true, stage := EmailStage.confirming,
          data := { toAddr := "a@b.com", subject := "s", body := "b",
                    purpose := "p", startTime := 0 } } "yes please" none).2.2 = 1 ∧
      (handleEmailIntent (fun _ => none)
        { ctxVerdict := { hasAllContext := true, missingInfo := none },
          genResult := none, sendResult := "Email sent successfully!" } 0
        { active := true, stage := EmailStage.confirming,
          data := { toAddr := "a@b.com", subject := "s", body := "b",
                    purpose := "p", startTime := 0 } } "yes please" none).2.1 =
        emailStateReset) :=
  ⟨(email_confirming_no_yes (fun _ => none) _ 0 _ "no" none (by decide)
      (by decide)).1 (by decide) (by decide) (by decide),
   (email_confirming_no_yes (fun _ => none) _ 0 _ "yes please" none (by decide)
      (by decide)).2.2.1 (by decide) (by decide)⟩

/-- Claim C3: while the mail flow is active, entity extraction for
`email_intent` returns the empty object and makes no completion-gateway
call, whatever the input text, regular-expression results and gateway
oracle. -/
theorem extractEntities_suppressed_while_active (r : RegexLib)
    (o : ExtractOracle) (nowIso tomorrowIso text : String) :
    extractEntities r o nowIso tomorrowIso text "email_intent" true = ([], 0) :=
  rfl

/-- Claim C4: on activation (inactive state, nonempty input), the
resulting stage is decided by the parse result: a full date and
well-formed time whose computed start is past or conflicted goes to
`suggesting_time`; a full date and time with neither condition goes to
`confirming`; a date without a time goes to `suggesting_time`; no
(truthy) date goes to `collecting_date`.  The flow is active in every
case. -/
theorem schedule_activation_stages (mkDate : String → Int)
    (iso : Int → String) (fmtDate : Int → String) (fmtDur : Int → String)
    (o : SchedOracle) (now : Int) (st : SchedState) (input : String)
    (hin : input ≠ "") (hact : st.active = false) :
    (∀ d raw hh mm, o.parsed.date = some d → d ≠ "" →
      o.parsed.time = some (TimeVal.timeStr raw hh mm) →
      (mkDate d + (hh * 60 + mm) * 60000 < now ∨ o.conflicts ≠ 0) →
      (handleScheduleIntent mkDate iso fmtDate fmtDur o now st input).2.stage =
        SchedStage.suggesting_time ∧
      (handleScheduleIntent mkDate iso fmtDate fmtDur o now st input).2.active = true) ∧
    (∀ d raw hh mm, o.parsed.date = some d → d ≠ "" →
      o.parsed.time = some (TimeVal.timeStr raw hh mm) →
      ¬ (mkDate d + (hh * 60 + mm) * 60000 < now ∨ o.conflicts ≠ 0) →
      (handleScheduleIntent mkDate iso fmtDate fmtDur o now st input).2.stage =
        SchedStage.confirming ∧
      (handleScheduleIntent mkDate iso fmtDate fmtDur o now st input).2.active = true) ∧
    (∀ d, o.parsed.date = some d → d ≠ "" → o.parsed.time = none →
      (handleScheduleIntent mkDate iso fmtDate fmtDur o now st input).2.stage =
        SchedStage.suggesting_time ∧
      (handleScheduleIntent mkDate iso fmtDate fmtDur o now st input).2.active = true) ∧
    ((o.parsed.date = none ∨ o.parsed.date = some "") →
      (handleScheduleIntent mkDate iso fmtDate fmtDur o now st input).2.stage =
        SchedStage.collecting_date ∧
      (handleScheduleIntent mkDate iso fmtDate fmtDur o now st input).2.active = true) := by
  refine ⟨?_, ?_, ?_, ?_⟩
  · intro d raw hh mm hd hdne ht hc
    simp [handleScheduleIntent, handleScheduleBody, suggestAvailableTimes,
      hin, hact, hd, hdne, ht, hc]
  · intro d raw hh mm hd hdne ht hc
    simp [handleScheduleIntent, handleScheduleBody, hin, hact, hd, hdne, ht, hc]
  · intro d hd hdne ht
    simp [handleScheduleIntent, handleScheduleBody, suggestAvailableTimes,
      hin, hact, hd, hdne, ht]
  · intro hd
    rcases hd with hd | hd <;>
      simp [handleScheduleIntent, handleScheduleBody, hin, hact, hd]

/-- Witness for C4: the spec's own example, a date (say tomorrow,
resolved by the parser) with no time, lands in `suggesting_time`. -/
theorem schedule_activation_stages_witness :
    (handleScheduleIntent (fun _ => 86400000) (fun _ => "") (fun _ => "")
        (fun _ => "")
        { parsed := { date := some "2025-04-02", time := none, duration := 60,
                      title := "Standup" },
          conflicts := 0,
          suggestions := [{ start := "a", stop := "b", displayText := "9:00 AM - 10:00 AM" }],
          fallbackSlots := [] } 5
        { active := false, stage := SchedStage.init,
          data := { title := "", date := none, time := none, duration := 60,
                    suggestedTimes := [], startTime := none, endTime := none,
                    startTimestamp := 0 } }
        "schedule a standup tomorrow").2.stage = SchedStage.suggesting_time ∧
    (handleScheduleIntent (fun _ => 86400000) (fun _ => "") (fun _ => "")
        (fun _ => "")
        { parsed := { date := some "2025-04-02", time := none, duration := 60,
                      title := "Standup" },
          conflicts := 0,
          suggestions := [{ start := "a", stop := "b", displayText := "9:00 AM - 10:00 AM" }],
          fallbackSlots := [] } 5
        { active := false, stage := SchedStage.init,
          data := { title := "", date := none, time := none, duration := 60,
                    suggestedTimes := [], startTime := none, endTime := none,
                    startTimestamp := 0 } }
        "schedule a standup tomorrow").2.active = true :=
  (schedule_activation_stages _ _ _ _ _ 5 _ "schedule a standup tomorrow"
      (by decide) (by decide)).2.2.1 "2025-04-02" (by decide) (by decide) (by decide)

/-- Claim C10: at `suggesting_time` (active, within the 10-minute
window, nonempty input), an input that is not a single digit 1-5
re-prompts and leaves the whole state unchanged; a digit whose index
has no stored suggestion re-prompts and leaves the state unchanged
(list access is by a safe lookup, no out-of-bounds read); a digit
whose suggestion exists binds start and end from it and moves to
`confirming`, keeping the suggestion list. -/
theorem schedule_selection_safe (mkDate : String → Int) (iso : Int → String)
    (fmtDate : Int → String) (fmtDur : Int → String) (o : SchedOracle)
    (now : Int) (st : SchedState) (input : String) (hin : input ≠ "")
    (hact : st.active = true) (hs : st.stage = SchedStage.suggesting_time)
    (htime : now - st.data.startTimestamp ≤ 10 * 60 * 1000) :
    (digitSel (trimChars input) = none →
      handleScheduleIntent mkDate iso fmtDate fmtDur o now st input =
        ("Please select a valid option or provide a specific time.", st)) ∧
    (∀ idx, digitSel (trimChars input) = some idx →
      st.data.suggestedTimes[idx]? = none →
      handleScheduleIntent mkDate iso fmtDate fmtDur o now st input =
        ("Please select a valid option.", st)) ∧
    (∀ idx sel, digitSel (trimChars input) = some idx →
      st.data.suggestedTimes[idx]? = some sel →
      (handleScheduleIntent mkDate iso fmtDate fmtDur o now st input).2.stage =
        SchedStage.confirming ∧
      (handleScheduleIntent mkDate iso fmtDate fmtDur o now st input).2.data.startTime =
        some sel.start ∧
      (handleScheduleIntent mkDate iso fmtDate fmtDur o now st input).2.data.endTime =
        some sel.stop ∧
      (handleScheduleIntent mkDate iso fmtDate fmtDur o now st input).2.data.suggestedTimes =
        st.data.suggestedTimes) := by
  have hnact : ¬ (st.active = false) := by rw [hact]; simp
  have hnt : ¬ (now - st.data.startTimestamp > 10 * 60 * 1000) := by omega
  have hnt2 : ¬ ((600000 : Int) < now - st.data.startTimestamp) := by omega
  refine ⟨?_, ?_, ?_⟩
  · intro hdig
    simp [handleScheduleIntent, handleScheduleBody, hin, hnact, hnt, hnt2, hs, hdig]
  · intro idx hdig hget
    simp [handleScheduleIntent, handleScheduleBody, hin, hnact, hnt, hnt2, hs, hdig, hget]
  · intro idx sel hdig hget
    simp [handleScheduleIntent, handleScheduleBody, hin, hnact, hnt, hnt2, hs, hdig, hget]

/-- Witness for C10: one stored suggestion; input "7" is rejected
without change, "2" is out of range and rejected without change, "1"
binds the suggestion and confirms. -/
theorem schedule_selection_safe_witness :
    (handleScheduleIntent (fun _ => 0) (fun _ => "") (fun _ => "") (fun _ => "")
        { parsed := { date := none, time := none, duration := 60, title := "" },
          conflicts := 0, suggestions := [], fallbackSlots := [] } 5
        { active := true, stage := SchedStage.suggesting_time,
          data := { title := "Sync", date := some "2025-04-02", time := none,
                    duration := 60,
                    suggestedTimes := [{ start := "s1", stop := "e1",
                                         displayText := "9:00 AM - 10:00 AM" }],
                    startTime := none, endTime := none, startTimestamp := 0 } }
        "7") =
      ("Please select a valid option or provide a specific time.",
       { active := true, stage := SchedStage.suggesting_time,
         data := { title := "Sync", date := some "2025-04-02", time := none,
                   duration := 60,
                   suggestedTimes := [{ start := "s1", stop := "e1",
                                        displayText := "9:00 AM - 10:00 AM" }],
                   startTime := none, endTime := none, startTimestamp := 0 } }) ∧
    (handleScheduleIntent (fun _ => 0) (fun _ => "") (fun _ => "") (fun _ => "")
        { parsed := { date := none, time := none, duration := 60, title := "" },
          conflicts := 0, suggestions := [], fallbackSlots := [] } 5
        { active := true, stage := SchedStage.suggesting_time,
          data := { title := "Sync", date := some "2025-04-02", time := none,
                    duration := 60,
                    suggestedTimes := [{ start := "s1", stop := "e1",
                                         displayText := "9:00 AM - 10:00 AM" }],
                    startTime := none, endTime := none, startTimestamp := 0 } }
        "2") =
      ("Please select a valid option.",
       { active := true, stage := SchedStage.suggesting_time,
         data := { title := "Sync", date := some "2025-04-02", time := none,
                   duration := 60,
                   suggestedTimes := [{ start := "s1", stop := "e1",
                                        displayText := "9:00 AM - 10:00 AM" }],
                   startTime := none, endTime := none, startTimestamp := 0 } }) ∧
    (handleScheduleIntent (fun _ => 0) (fun _ => "") (fun _ => "") (fun _ => "")
        { parsed := { date := none, time := none, duration := 60, title := "" },
          conflicts := 0, suggestions := [], fallbackSlots := [] } 5
        { active := true, stage := SchedStage.suggesting_time,
          data := { title := "Sync", date := some "2025-04-02", time := none,
                    duration := 60,
                    suggestedTimes := [{ start := "s1", stop := "e1",
                                         displayText := "9:00 AM - 10:00 AM" }],
                    startTime := none, endTime := none, startTimestamp := 0 } }
        "1").2.stage = SchedStage.confirming :=
  ⟨(schedule_selection_safe _ _ _ _ _ 5 _ "7" (by decide) (by decide) (by decide)
      (by decide)).1 (by decide),
   (schedule_selection_safe _ _ _ _ _ 5 _ "2" (by decide) (by decide) (by decide)
      (by decide)).2.1 1 (by decide) (by decide),
   ((schedule_selection_safe _ _ _ _ _ 5 _ "1" (by decide) (by decide) (by decide)
      (by decide)).2.2 0
      ({ start := "s1", stop := "e1", displayText := "9:00 AM - 10:00 AM" })
      (by decide) (by decide)).1⟩

/-- Counterexample to C2 as stated: a raise inside the scheduling
turn handler (here a TypeError from `parsed.time.split(':')` on a
non-string time) reaches the catch, which returns the generic recovery
message but does not reset the flow: the state is left active at
`parsing_request`. -/
theorem flow_error_leaves_active_cex :
    (handleScheduleBody (fun _ => 0) (fun _ => "") (fun _ => "") (fun _ => "")
        { parsed := { date := some "2025-04-01", time := some TimeVal.nonString,
                      duration := 60, title := "Sync" },
          conflicts := 0, suggestions := [], fallbackSlots := [] } 5
        { active := false, stage := SchedStage.init,
          data := { title := "", date := none, time := none, duration := 60,
                    suggestedTimes := [], startTime := none, endTime := none,
                    startTimestamp := 0 } }
        "book a sync tomorrow at nine").1 = Except.error () ∧
    handleScheduleIntent (fun _ => 0) (fun _ => "") (fun _ => "") (fun _ => "")
        { parsed := { date := some "2025-04-01", time := some TimeVal.nonString,
                      duration := 60, title := "Sync" },
          conflicts := 0, suggestions := [], fallbackSlots := [] } 5
        { active := false, stage := SchedStage.init,
          data := { title := "", date := none, time := none, duration := 60,
                    suggestedTimes := [], startTime := none, endTime := none,
                    startTimestamp := 0 } }
        "book a sync tomorrow at nine" =
      ("I encountered an error while trying to schedule. Please try again.",
       { active := true, stage := SchedStage.parsing_request,
         data := { title := "Sync", date := some "2025-04-01",
                   time := some TimeVal.nonString, duration := 60,
                   suggestedTimes := [], startTime := none, endTime := none,
                   startTimestamp := 5 } }) ∧
    (handleScheduleIntent (fun _ => 0) (fun _ => "") (fun _ => "") (fun _ => "")
        { parsed := { date := some "2025-04-01", time := some TimeVal.nonString,
                      duration := 60, title := "Sync" },
          conflicts := 0, suggestions := [], fallbackSlots := [] } 5
        { active := false, stage := SchedStage.init,
          data := { title := "", date := none, time := none, duration := 60,
                    suggestedTimes := [], startTime := none, endTime := none,
                    startTimestamp := 0 } }
        "book a sync tomorrow at nine").2.active = true :=
  ⟨rfl, rfl, rfl⟩

/-- Claim C2 (amended): a raise inside the scheduling flow's turn
handler yields the generic recovery message but leaves the flow state
exactly as it was at the raise point, which can be active (see the
counterexample); in the mail flow, the reachable raise (generation
failing all attempts) is absorbed by the generation step's own catch,
which returns a recovery message with the flow still active at
`collecting_purpose`.  Only the mail flow's top-level catch, whose
body's collaborators are all total, would reset to inactive. -/
theorem flow_error_handling :
    (∀ (mkDate : String → Int) (iso fmtDate fmtDur : Int → String)
       (o : SchedOracle) (now : Int) (st : SchedState) (input : String)
       (e : Unit) (st1 : SchedState),
      handleScheduleBody mkDate iso fmtDate fmtDur o now st input =
        (Except.error e, st1) →
      handleScheduleIntent mkDate iso fmtDate fmtDur o now st input =
        ("I encountered an error while trying to schedule. Please try again.",
         st1)) ∧
    (∀ (emailMatch : String → Option String) (o : MailOracle) (now : Int)
       (st : EmailState) (input : String) (eTo : Option String),
      st.active = true → st.stage = EmailStage.collecting_purpose →
      now - st.data.startTime ≤ 15 * 60 * 1000 →
      ¬ (o.ctxVerdict.hasAllContext = false ∧
         strTruthy o.ctxVerdict.missingInfo = true) →
      o.genResult = none →
      (handleEmailIntent emailMatch o now st input eTo).2.1.active = true ∧
      (handleEmailIntent emailMatch o now st input eTo).2.1.stage =
        EmailStage.collecting_purpose ∧
      (handleEmailIntent emailMatch o now st input eTo).1 =
        "I encountered an issue creating your email. Could you please describe the purpose again?") := by
  constructor
  · intro mkDate iso fmtDate fmtDur o now st input e st1 h
    simp [handleScheduleIntent, h]
  · intro emailMatch o now st input eTo hact hs htime hctx hgen
    have hnact : ¬ (st.active = false) := by rw [hact]; simp
    have hnt : ¬ (now - st.data.startTime > 15 * 60 * 1000) := by omega
    have hnt2 : ¬ ((900000 : Int) < now - st.data.startTime) := by omega
    simp [handleEmailIntent, proceedToEmailGeneration, hnact, hnt, hnt2, hs,
      hctx, hgen, hact]

/-- Witness for the amended C2 at concrete inputs on both flows. -/
theorem flow_error_handling_witness :
    handleScheduleIntent (fun _ => 0) (fun _ => "") (fun _ => "") (fun _ => "")
        { parsed := { date := some "2025-04-01", time := some TimeVal.nonString,
                      duration := 60, title := "Sync" },
          conflicts := 0, suggestions := [], fallbackSlots := [] } 5
        { active := false, stage := SchedStage.init,
          data := { title := "", date := none, time := none, duration := 60,
                    suggestedTimes := [], startTime := none, endTime := none,
                    startTimestamp := 0 } }
        "plan it" =
      ("I encountered an error while trying to schedule. Please try again.",
       { active := true, stage := SchedStage.parsing_request,
         data := { title := "Sync", date := some "2025-04-01",
                   time := some TimeVal.nonString, duration := 60,
                   suggestedTimes := [], startTime := none, endTime := none,
                   startTimestamp := 5 } }) ∧
    ((handleEmailIntent (fun _ => none)
        { ctxVerdict := { hasAllContext := true, missingInfo := none },
          genResult := none, sendResult := "" } 0
        { active := true, stage := EmailStage.collecting_purpose,
          data := { toAddr := "a@b.com", subject := "", body := "",
                    purpose := "", startTime := 0 } }
        "tell them the plan moved" none).2.1.active = true ∧
      (handleEmailIntent (fun _ => none)
        { ctxVerdict := { hasAllContext := true, missingInfo := none },
          genResult := none, sendResult := "" } 0
        { active := true, stage := EmailStage.collecting_purpose,
          data := { toAddr := "a@b.com", subject := "", body := "",
                    purpose := "", startTime := 0 } }
        "tell them the plan moved" none).2.1.stage =
        EmailStage.collecting_purpose ∧
      (handleEmailIntent (fun _ => none)
        { ctxVerdict := { hasAllContext := true, missingInfo := none },
          genResult := none, sendResult := "" } 0
        { active := true, stage := EmailStage.collecting_purpose,
          data := { toAddr := "a@b.com", subject := "", body := "",
                    purpose := "", startTime := 0 } }
        "tell them the plan moved" none).1 =
        "I encountered an issue creating your email. Could you please describe the purpose again?") :=
  ⟨flow_error_handling.1 (fun _ => 0) (fun _ => "") (fun _ => "") (fun _ => "")
      _ 5 _ "plan it" () _ rfl,
   flow_error_handling.2 (fun _ => none) _ 0 _ "tell them the plan moved" none
      (by decide) (by decide) (by decide) (by decide) (by decide)⟩

theorem filter_system_eq_nil (l : List ConvMsg) (q : MsgContent → Bool)
    (h : ∀ m ∈ l, m.role ≠ "system") :
    l.filter (fun m => m.role == "system" && q m.content) = [] := by
  rw [List.filter_eq_nil_iff]
  intro m hm
  have hr := h m hm
  simp [hr]

theorem no_system_slide (st : List ConvMsg) (input : String)
    (h : ∀ m ∈ st, m.role ≠ "system") :
    ∀ m ∈ slideWindow st input, m.role ≠ "system" := by
  intro m hm
  simp only [slideWindow] at hm
  have hm2 : m ∈ st ++
      [({ role := "user", content := MsgContent.text input } : ConvMsg)] := by
    split at hm
    · exact (List.tail_sublist _).subset hm
    · exact hm
  rcases List.mem_append.mp hm2 with h2 | h2
  · exact h m h2
  · rw [List.mem_singleton] at h2
    subst h2
    simp

/-- Claim C5 (amended): the durable message store receives the
assistant response alongside the user message only on the
intent-dispatch fall-through paths.  Clause by clause over one turn:
the pending-confirmation path returns the confirmation result and the
pending-suggestion path the selection handler's result, each
persisting only the user row; the active mail flow returns the flow's
response, persisting only the user row; the research, calendar,
email-dispatch and exit paths persist the assistant row alongside the
user row; successful general chat returns the generated reply
persisting only the user row; failed general chat falls through and
persists its error text. -/
theorem processInput_persistence (o : OrchOracle) (now : Int)
    (st : OrchState) (sid : String) (uid : Option String) (input : String) :
    (∀ resp h2,
      checkForPendingCalendarEvents o.confirmCal input (slideWindow st.history input) =
        some (resp, h2) →
      (processInput o now st sid uid input).2.durable =
        st.durable ++ [(sid, "user", input)] ∧
      (processInput o now st sid uid input).1 = resp) ∧
    (checkForPendingCalendarEvents o.confirmCal input (slideWindow st.history input) =
        none →
      ((slideWindow st.history input).filter
        (fun m => m.role == "system" && isSuggestionMarker m.content)).length ≠ 0 →
      (processInput o now st sid uid input).2.durable =
        st.durable ++ [(sid, "user", input)] ∧
      (processInput o now st sid uid input).1 = o.timeSel) ∧
    ((∀ m ∈ st.history, m.role ≠ "system") → st.emailState.active = true →
      (processInput o now st sid uid input).2.durable =
        st.durable ++ [(sid, "user", input)] ∧
      (processInput o now st sid uid input).1 =
        (handleEmailIntent o.emailMatch o.mailO now st.emailState input none).1) ∧
    ((∀ m ∈ st.history, m.role ≠ "system") → st.emailState.active = false →
      classifyIntent o.classifyGateway input = "research_intent" →
      (processInput o now st sid uid input).2.durable =
        st.durable ++ [(sid, "user", input), (sid, "assistant", o.researchResult)] ∧
      (processInput o now st sid uid input).1 = o.researchResult) ∧
    ((∀ m ∈ st.history, m.role ≠ "system") → st.emailState.active = false →
      classifyIntent o.classifyGateway input = "calendar_intent" →
      (processInput o now st sid uid input).2.durable =
        st.durable ++ [(sid, "user", input),
          (sid, "assistant", calRespMsg o.calResp)] ∧
      (processInput o now st sid uid input).1 = calRespMsg o.calResp) ∧
    ((∀ m ∈ st.history, m.role ≠ "system") → st.emailState.active = false →
      classifyIntent o.classifyGateway input = "email_intent" →
      (processInput o now st sid uid input).2.durable =
        st.durable ++ [(sid, "user", input),
          (sid, "assistant",
           (handleEmailIntent o.emailMatch o.mailO now st.emailState input
             (emailEntityTo (extractEntities o.regexes o.extractO o.nowIso
               o.tomorrowIso input "email_intent" st.emailState.active).1)).1)] ∧
      (processInput o now st sid uid input).1 =
        (handleEmailIntent o.emailMatch o.mailO now st.emailState input
          (emailEntityTo (extractEntities o.regexes o.extractO o.nowIso
            o.tomorrowIso input "email_intent" st.emailState.active).1)).1) ∧
    ((∀ m ∈ st.history, m.role ≠ "system") → st.emailState.active = false →
      classifyIntent o.classifyGateway input = "exit_intent" →
      (processInput o now st sid uid input).2.durable =
        st.durable ++ [(sid, "user", input), (sid, "assistant", "Peace out!")] ∧
      (processInput o now st sid uid input).1 = "Peace out!") ∧
    ((∀ m ∈ st.history, m.role ≠ "system") → st.emailState.active = false →
      classifyIntent o.classifyGateway input = "chat_intent" →
      ∀ reply, o.chatGen = some reply →
      (processInput o now st sid uid input).2.durable =
        st.durable ++ [(sid, "user", input)] ∧
      (processInput o now st sid uid input).1 = reply) ∧
    ((∀ m ∈ st.history, m.role ≠ "system") → st.emailState.active = false →
      classifyIntent o.classifyGateway input = "chat_intent" →
      o.chatGen = none →
      (processInput o now st sid uid input).2.durable =
        st.durable ++ [(sid, "user", input),
          (sid, "assistant", "AI: Couldn't process that: " ++ o.chatErrMsg)] ∧
      (processInput o now st sid uid input).1 =
        "AI: Couldn't process that: " ++ o.chatErrMsg) := by
  refine ⟨?_, ?_, ?_, ?_, ?_, ?_, ?_, ?_, ?_⟩
  · intro resp h2 hchk
    simp only [processInput]
    rw [hchk]
    exact ⟨rfl, rfl⟩
  · intro hchk hlen
    simp only [processInput]
    rw [hchk]
    simp only [if_pos hlen]
    exact ⟨trivial, trivial⟩
  · intro hsys hact
    have hall := no_system_slide st.history input hsys
    have hchk : checkForPendingCalendarEvents o.confirmCal input
        (slideWindow st.history input) = none := by
      unfold checkForPendingCalendarEvents
      rw [filter_system_eq_nil _ isPendingMarker hall]
      rfl
    have hsug := filter_system_eq_nil _ isSuggestionMarker hall
    simp only [processInput]
    rw [hchk, hsug]
    simp [hact]
  · intro hsys hact hint
    have hall := no_system_slide st.history input hsys
    have hchk : checkForPendingCalendarEvents o.confirmCal input
        (slideWindow st.history input) = none := by
      unfold checkForPendingCalendarEvents
      rw [filter_system_eq_nil _ isPendingMarker hall]
      rfl
    have hsug := filter_system_eq_nil _ isSuggestionMarker hall
    simp only [processInput]
    rw [hchk, hsug]
    simp [hact, hint]
  · intro hsys hact hint
    have hall := no_system_slide st.history input hsys
    have hchk : checkForPendingCalendarEvents o.confirmCal input
        (slideWindow st.history input) = none := by
      unfold checkForPendingCalendarEvents
      rw [filter_system_eq_nil _ isPendingMarker hall]
      rfl
    have hsug := filter_system_eq_nil _ isSuggestionMarker hall
    simp only [processInput]
    rw [hchk, hsug]
    cases o.calResp <;> simp [hact, hint, calRespMsg]
  · intro hsys hact hint
    have hall := no_system_slide st.history input hsys
    have hchk : checkForPendingCalendarEvents o.confirmCal input
        (slideWindow st.history input) = none := by
      unfold checkForPendingCalendarEvents
      rw [filter_system_eq_nil _ isPendingMarker hall]
      rfl
    have hsug := filter_system_eq_nil _ isSuggestionMarker hall
    simp only [processInput]
    rw [hchk, hsug]
    simp [hact, hint]
  · intro hsys hact hint
    have hall := no_system_slide st.history input hsys
    have hchk : checkForPendingCalendarEvents o.confirmCal input
        (slideWindow st.history input) = none := by
      unfold checkForPendingCalendarEvents
      rw [filter_system_eq_nil _ isPendingMarker hall]
      rfl
    have hsug := filter_system_eq_nil _ isSuggestionMarker hall
    simp only [processInput]
    rw [hchk, hsug]
    simp [hact, hint]
  · intro hsys hact hint reply hgen
    have hall := no_system_slide st.history input hsys
    have hchk : checkForPendingCalendarEvents o.confirmCal input
        (slideWindow st.history input) = none := by
      unfold checkForPendingCalendarEvents
      rw [filter_system_eq_nil _ isPendingMarker hall]
      rfl
    have hsug := filter_system_eq_nil _ isSuggestionMarker hall
    simp only [processInput]
    rw [hchk, hsug]
    simp [hact, hint, hgen]
  · intro hsys hact hint hgen
    have hall := no_system_slide st.history input hsys
    have hchk : checkForPendingCalendarEvents o.confirmCal input
        (slideWindow st.history input) = none := by
      unfold checkForPendingCalendarEvents
      rw [filter_system_eq_nil _ isPendingMarker hall]
      rfl
    have hsug := filter_system_eq_nil _ isSuggestionMarker hall
    simp only [processInput]
    rw [hchk, hsug]
    simp [hact, hint, hgen]

/-- Witness instantiating every clause of the persistence theorem on a
concrete turn: a confirmed pending event, a suggestion selection, an
active mail-flow turn, and research, calendar, email, exit, successful
chat and failed chat dispatches. -/
theorem processInput_persistence_witness :
    (processInput demoOracle 0 demoPendingState "s" none "yes").2.durable =
      demoPendingState.durable ++ [("s", "user", "yes")] ∧
    (processInput demoOracle 0 demoSuggestState "s" none "1").2.durable =
      demoSuggestState.durable ++ [("s", "user", "1")] ∧
    (processInput demoOracle 0 demoMailState "s" none "hi").2.durable =
      demoMailState.durable ++ [("s", "user", "hi")] ∧
    (processInput { demoOracle with classifyGateway := some "research_intent" } 0
        demoState "s" none "look this up").2.durable =
      demoState.durable ++ [("s", "user", "look this up"),
        ("s", "assistant", demoOracle.researchResult)] ∧
    (processInput { demoOracle with classifyGateway := some "calendar_intent" } 0
        demoState "s" none "set up a meeting").2.durable =
      demoState.durable ++ [("s", "user", "set up a meeting"),
        ("s", "assistant", calRespMsg demoOracle.calResp)] ∧
    (processInput { demoOracle with classifyGateway := some "email_intent" } 0
        demoState "s" none "send an email").2.durable =
      demoState.durable ++ [("s", "user", "send an email"),
        ("s", "assistant",
         (handleEmailIntent demoOracle.emailMatch demoOracle.mailO 0
           demoState.emailState "send an email"
           (emailEntityTo (extractEntities demoOracle.regexes demoOracle.extractO
             demoOracle.nowIso demoOracle.tomorrowIso "send an email" "email_intent"
             demoState.emailState.active).1)).1)] ∧
    (processInput { demoOracle with classifyGateway := some "exit_intent" } 0
        demoState "s" none "bye").2.durable =
      demoState.durable ++ [("s", "user", "bye"), ("s", "assistant", "Peace out!")] ∧
    (processInput demoOracle 0 demoState "s" none "chat with me").2.durable =
      demoState.durable ++ [("s", "user", "chat with me")] ∧
    (processInput { demoOracle with chatGen := none } 0
        demoState "s" none "chat with me").2.durable =
      demoState.durable ++ [("s", "user", "chat with me"),
        ("s", "assistant", "AI: Couldn't process that: " ++ demoOracle.chatErrMsg)] :=
  ⟨((processInput_persistence demoOracle 0 demoPendingState "s" none "yes").1
      "Scheduled!" [{ role := "user", content := MsgContent.text "yes" }] rfl).1,
   ((processInput_persistence demoOracle 0 demoSuggestState "s" none "1").2.1
      rfl (by decide)).1,
   ((processInput_persistence demoOracle 0 demoMailState "s" none "hi").2.2.1
      (by simp [demoMailState]) rfl).1,
   ((processInput_persistence
      { demoOracle with classifyGateway := some "research_intent" } 0
      demoState "s" none "look this up").2.2.2.1 (by simp [demoState]) rfl rfl).1,
   ((processInput_persistence
      { demoOracle with classifyGateway := some "calendar_intent" } 0
      demoState "s" none "set up a meeting").2.2.2.2.1 (by simp [demoState]) rfl rfl).1,
   ((processInput_persistence
      { demoOracle with classifyGateway := some "email_intent" } 0
      demoState "s" none "send an email").2.2.2.2.2.1 (by simp [demoState]) rfl rfl).1,
   ((processInput_persistence
      { demoOracle with classifyGateway := some "exit_intent" } 0
      demoState "s" none "bye").2.2.2.2.2.2.1 (by simp [demoState]) rfl rfl).1,
   ((processInput_persistence demoOracle 0 demoState "s" none
      "chat with me").2.2.2.2.2.2.2.1 (by simp [demoState]) rfl rfl "hello there" rfl).1,
   ((processInput_persistence { demoOracle with chatGen := none } 0
      demoState "s" none "chat with me").2.2.2.2.2.2.2.2
      (by simp [demoState]) rfl rfl rfl).1⟩

/-- Counterexample to C5 as stated: with the mail flow active, the
turn returns the flow's re-prompt but the durable store receives only
the user row; the assistant response is never persisted on this path. -/
theorem processInput_persistence_cex :
    processInput
        { confirmCal := fun _ => "", timeSel := "", classifyGateway := none,
          extractO := { gateway := none, parsedJson := none },
          regexes := { calledMatch := fun _ => none, scheduleMatch := fun _ => none,
                       emailToMatch := fun _ => none, subjectMatch := fun _ => none,
                       bodyMatch := fun _ => none, catchToMatch := fun _ => none },
          nowIso := "", tomorrowIso := "", researchResult := "",
          calResp := CalResp.plain "", chatGen := none, chatErrMsg := "",
          emailMatch := fun _ => none,
          mailO := { ctxVerdict := { hasAllContext := true, missingInfo := none },
                     genResult := none, sendResult := "" } } 0
        { durable := [], history := [],
          emailState := { active := true, stage := EmailStage.collecting_recipient,
                          data := { toAddr := "", subject := "", body := "",
                                    purpose := "", startTime := 0 } } }
        "s1" none "hi" =
      ("I didn't catch a valid email address. Please provide a full email address like example@domain.com",
       { durable := [("s1", "user", "hi")],
         history := [{ role := "user", content := MsgContent.text "hi" },
                     { role := "assistant",
                       content := MsgContent.text "I didn't catch a valid email address. Please provide a full email address like example@domain.com" }],
         emailState := { active := true, stage := EmailStage.collecting_recipient,
                         data := { toAddr := "", subject := "", body := "",
                                   purpose := "", startTime := 0 } } }) :=
  rfl
